import Mathlib

/-! Module compatibility validation of furyctl for Kubernetes upgrades.

A shallow embedding of `internal/distribution/breaking_changes.go`.

* Go strings are Lean `String`s, `fmt.Sprintf` with `%s` and `%d` verbs is
  string concatenation (with `toString` for the decimal rendering of a count).
* A Go `map[string]string` is read by the validator only through the lookup
  `v, ok := m[k]`, so a module map is a function `String → Option String`.
* A Go `error` is `Option String`: `none` is `nil`, `some t` is an error whose
  text is `t`.
* The package `internal/semver` is imported by the validator but is not part of
  the sources at hand; the version parser and the comparison are a parameter
  of the embedding (`VersionComparator`), and one concrete comparator is
  modelled from the specification for use on concrete inputs.
-/

namespace Furyctl

/-! ## Strings -/

/-- Go `strings.Contains` on character lists: `sub` occurs in `s` as a
contiguous block. -/
def containsChars (sub : List Char) : List Char → Bool
  | [] => sub.isEmpty
  | c :: cs => sub.isPrefixOf (c :: cs) || containsChars sub cs

/-- Go `strings.Contains(s, substr)`. -/
def stringsContains (s substr : String) : Bool :=
  containsChars substr.data s.data

/-- Go `strings.Join(elems, sep)`. -/
def stringsJoin : List String → String → String
  | [], _ => ""
  | [a], _ => a
  | a :: b :: rest, sep => a ++ sep ++ stringsJoin (b :: rest) sep

/-! ## Version comparison -/

/-- Modelled from the spec: the package `internal/semver` (absent from the
sources) as the spec's VersionComparator, "`parse(s) -> Version | fails with
InvalidVersionFormat`; `compare(a, b) -> {LT, EQ, GT}`". The parser and the
comparison are fields, so that results hold for every implementation of the
package; a failed parse carries the text of its error. -/
structure VersionComparator where
  /-- The parsed version type. -/
  Version : Type
  /-- The function `semver.NewVersion`. -/
  NewVersion : String → Except String Version
  /-- The three-way comparison of two parsed versions. -/
  Compare : Version → Version → Ordering

/-- Modelled from the spec: the method `GreaterThanOrEqual` of a parsed version
(absent from the sources), one of the "derived operations `greaterOrEqual`,
`lessThan`" of `compare`. -/
def VersionComparator.GreaterThanOrEqual (vc : VersionComparator)
    (a b : vc.Version) : Bool :=
  vc.Compare a b != Ordering.lt

/-- Modelled from the spec: the method `LessThan` of a parsed version (absent
from the sources), the other derived operation of `compare`. -/
def VersionComparator.LessThan (vc : VersionComparator)
    (a b : vc.Version) : Bool :=
  vc.Compare a b == Ordering.lt

/-! ### A concrete comparator -/

/-- Modelled from the spec: the data model's Version, "a parsed semantic
version (major, minor, patch, optional prerelease/build, optional literal
prefix normalized away)". The type is absent from the sources. Build metadata
takes no part in the ordering and is not kept. -/
structure SemVersion where
  major : Nat
  minor : Nat
  patch : Nat
  prerelease : Option (List (List Char))
deriving DecidableEq, Repr

/-- Split a character list at every occurrence of `sep`. -/
def splitChars (sep : Char) : List Char → List (List Char)
  | [] => [[]]
  | c :: cs =>
    if c = sep then [] :: splitChars sep cs
    else
      match splitChars sep cs with
      | [] => [[c]]
      | w :: ws => (c :: w) :: ws

/-- Split a character list at the first occurrence of `sep`, if any. -/
def cutChars (sep : Char) : List Char → List Char × Option (List Char)
  | [] => ([], none)
  | c :: cs =>
    if c = sep then ([], some cs)
    else ((cutChars sep cs).1.cons c, (cutChars sep cs).2)

/-- A non-empty run of decimal digits. -/
def isNumeric (w : List Char) : Bool :=
  !w.isEmpty && w.all Char.isDigit

/-- The value of a run of decimal digits. -/
def digitsValue (w : List Char) : Nat :=
  w.foldl (fun n c => 10 * n + (c.toNat - 48)) 0

/-- Modelled from the spec: `parse` of the semver package (absent from the
sources), accepting "both a bare dotted numeric form (e.g. "1.35.0") and a
prefixed form (e.g. "v0.6.0"), normalizing the prefix". One leading `v` is
dropped, build metadata after `+` is dropped, a prerelease after `-` is split
into its dot-separated identifiers, and what remains must be three
dot-separated runs of digits. -/
def parseSemVersion (s : String) : Except String SemVersion :=
  let body := match s.data with
    | 'v' :: rest => rest
    | cs => cs
  let noBuild := (cutChars '+' body).1
  let core := (cutChars '-' noBuild).1
  let pre := (cutChars '-' noBuild).2
  match splitChars '.' core with
  | [a, b, c] =>
    if isNumeric a && isNumeric b && isNumeric c then
      match pre with
      | none => .ok ⟨digitsValue a, digitsValue b, digitsValue c, none⟩
      | some p =>
        if (splitChars '.' p).all (fun w => !w.isEmpty) then
          .ok ⟨digitsValue a, digitsValue b, digitsValue c, some (splitChars '.' p)⟩
        else .error ("invalid semantic version: " ++ s)
    else .error ("invalid semantic version: " ++ s)
  | _ => .error ("invalid semantic version: " ++ s)

/-- Lexical comparison of two character lists by code point. -/
def compareChars : List Char → List Char → Ordering
  | [], [] => .eq
  | [], _ :: _ => .lt
  | _ :: _, [] => .gt
  | a :: as, b :: bs =>
    if a.toNat < b.toNat then .lt
    else if b.toNat < a.toNat then .gt
    else compareChars as bs

/-- Precedence of two prerelease identifiers: numeric ones by value and below
alphanumeric ones, alphanumeric ones lexically. -/
def compareIdent (a b : List Char) : Ordering :=
  if isNumeric a then
    if isNumeric b then compare (digitsValue a) (digitsValue b) else .lt
  else
    if isNumeric b then .gt else compareChars a b

/-- Precedence of two prerelease identifier lists: the first difference
decides, and a longer list is above its own initial segment. -/
def compareIdents : List (List Char) → List (List Char) → Ordering
  | [], [] => .eq
  | [], _ :: _ => .lt
  | _ :: _, [] => .gt
  | a :: as, b :: bs =>
    match compareIdent a b with
    | .eq => compareIdents as bs
    | o => o

/-- Modelled from the spec: `compare` of the semver package (absent from the
sources), the "semantic ordering": major, minor and patch numerically, then a
version with a prerelease below the same version without one. -/
def compareSemVersion (a b : SemVersion) : Ordering :=
  match compare a.major b.major with
  | .eq =>
    match compare a.minor b.minor with
    | .eq =>
      match compare a.patch b.patch with
      | .eq =>
        match a.prerelease, b.prerelease with
        | none, none => .eq
        | none, some _ => .gt
        | some _, none => .lt
        | some p, some q => compareIdents p q
      | o => o
    | o => o
  | o => o

/-- Modelled from the spec: the semver package (absent from the sources) as one
concrete VersionComparator. -/
def semver : VersionComparator where
  Version := SemVersion
  NewVersion := parseSemVersion
  Compare := compareSemVersion

/-! ## The registry of breaking changes -/

/-- A breaking change for a specific module (`ModuleBreakingChange`). -/
structure ModuleBreakingChange where
  /-- Module name. -/
  Module : String
  /-- Minimum module version required for the Kubernetes version. -/
  MinVersion : String
  /-- Description of the breaking change. -/
  Description : String
  /-- URL with migration instructions; empty when there is none. -/
  MigrationURL : String
deriving DecidableEq, Repr

/-- The breaking changes of one Kubernetes version
(`KubernetesBreakingChanges`). -/
structure KubernetesBreakingChanges where
  KubernetesVersion : String
  Changes : List ModuleBreakingChange
deriving DecidableEq, Repr

/-- The rule for the networking module. -/
def networkingChange : ModuleBreakingChange :=
  { Module := "networking"
    MinVersion := "v3.0.0"
    Description := "Kubernetes 1.35 requires networking module v3.0.0+ for CNI compatibility improvements"
    MigrationURL := "" }

/-- The rule for the monitoring module. -/
def monitoringChange : ModuleBreakingChange :=
  { Module := "monitoring"
    MinVersion := "v4.0.1"
    Description := "Kubernetes 1.35 requires monitoring module v4.0.1+ for metric changes"
    MigrationURL := "" }

/-- The rule for the auth module. -/
def authChange : ModuleBreakingChange :=
  { Module := "auth"
    MinVersion := "v0.6.0"
    Description := "Kubernetes 1.35 requires auth module v0.6.0+ for WebSocket RBAC validation"
    MigrationURL := "" }

/-- The rule for the logging module. -/
def loggingChange : ModuleBreakingChange :=
  { Module := "logging"
    MinVersion := "v5.2.0"
    Description := "Kubernetes 1.35 requires logging module v5.2.0+ for new audit log formats"
    MigrationURL := "" }

/-- The registry group of Kubernetes 1.35.0. -/
def changes135 : KubernetesBreakingChanges :=
  { KubernetesVersion := "1.35.0"
    Changes := [networkingChange, monitoringChange, authChange, loggingChange] }

/-- All known breaking changes by Kubernetes version
(`getKubernetesBreakingChanges`). -/
def getKubernetesBreakingChanges : List KubernetesBreakingChanges :=
  [changes135]

/-! ## The validator -/

/-- A module map, read through the lookup `v, ok := m[k]`. -/
abbrev ModuleMap := String → Option String

/-- The empty module map. -/
def emptyModules : ModuleMap := fun _ => none

/-- The module map built by assigning the bindings in list order, as
`m[k] = v` does. -/
def ofBindings (bs : List (String × String)) : ModuleMap :=
  bs.foldl (fun m b => Function.update m b.1 (some b.2)) emptyModules

/-- The validator's state (`BreakingChangeValidator`). -/
structure BreakingChangeValidator where
  kubernetesVersion : String
  modules : ModuleMap

/-- The constructor `NewBreakingChangeValidator`. -/
def NewBreakingChangeValidator (kubernetesVersion : String) (modules : ModuleMap) :
    BreakingChangeValidator :=
  { kubernetesVersion := kubernetesVersion, modules := modules }

/-- The message recorded for a module whose version does not parse. -/
def invalidFormatMessage (change : ModuleBreakingChange)
    (currentModuleVersion : String) : String :=
  "Module '" ++ change.Module ++ "' has invalid version format '" ++
    currentModuleVersion ++ "'"

/-- The message recorded for a module below its minimum version, with the
migration URL appended when the rule has one. -/
def incompatibleMessage (bc : KubernetesBreakingChanges) (change : ModuleBreakingChange)
    (currentModuleVersion : String) : String :=
  let msg := "Module '" ++ change.Module ++ "' version " ++ currentModuleVersion ++
    " is incompatible with Kubernetes " ++ bc.KubernetesVersion ++ ". " ++
    "Required: " ++ change.MinVersion ++ " or later. " ++ change.Description
  if change.MigrationURL ≠ "" then msg ++ (" See: " ++ change.MigrationURL) else msg

/-- One iteration of the inner loop of `Validate`: the rule `change` of the
group `bc` is checked against the module map and `errors` is the accumulator. -/
def checkChange (vc : VersionComparator) (modules : ModuleMap)
    (bc : KubernetesBreakingChanges) (errors : List String)
    (change : ModuleBreakingChange) : List String :=
  match modules change.Module with
  | none => errors
  | some currentModuleVersion =>
    match vc.NewVersion change.MinVersion with
    | .error _ => errors
    | .ok minVersion =>
      match vc.NewVersion currentModuleVersion with
      | .error _ => errors ++ [invalidFormatMessage change currentModuleVersion]
      | .ok currentVersion =>
        if vc.LessThan currentVersion minVersion then
          errors ++ [incompatibleMessage bc change currentModuleVersion]
        else errors

/-- One iteration of the outer loop of `Validate`: the group `bc` is applied
when its version parses and the target is at or above it. -/
def checkGroup (vc : VersionComparator) (modules : ModuleMap)
    (targetK8sVersion : vc.Version) (errors : List String)
    (bc : KubernetesBreakingChanges) : List String :=
  match vc.NewVersion bc.KubernetesVersion with
  | .error _ => errors
  | .ok bcVersion =>
    if vc.GreaterThanOrEqual targetK8sVersion bcVersion then
      bc.Changes.foldl (checkChange vc modules bc) errors
    else errors

/-- The method `BreakingChangeValidator.Validate`: the recorded messages and
the error. -/
def BreakingChangeValidator.Validate (vc : VersionComparator)
    (v : BreakingChangeValidator) : List String × Option String :=
  let warnings : List String := []
  match vc.NewVersion v.kubernetesVersion with
  | .error err => ([], some ("invalid kubernetes version format: " ++ err))
  | .ok targetK8sVersion =>
    let errors := getKubernetesBreakingChanges.foldl
      (checkGroup vc v.modules targetK8sVersion) []
    if errors.length > 0 then
      (errors, some ("module compatibility check failed: " ++ toString errors.length ++
        " incompatibilities detected"))
    else (warnings, none)

/-- The function `CheckModuleCompatibility`. -/
def CheckModuleCompatibility (vc : VersionComparator) (kubernetesVersion : String)
    (modules : ModuleMap) : Option String :=
  let validator := NewBreakingChangeValidator kubernetesVersion modules
  match validator.Validate vc with
  | (errors, some err) =>
    if errors.length > 0 then
      some (err ++ ":\n  - " ++ stringsJoin errors "\n  - ")
    else some err
  | (_, none) => none

/-! ## Predicates used to state the properties -/

/-- The comparator parses the four minimum versions of the registry, to `n`
(networking), `m` (monitoring), `a` (auth) and `l` (logging). -/
def ParsesMinimums (vc : VersionComparator) (n m a l : vc.Version) : Prop :=
  vc.NewVersion networkingChange.MinVersion = .ok n ∧
  vc.NewVersion monitoringChange.MinVersion = .ok m ∧
  vc.NewVersion authChange.MinVersion = .ok a ∧
  vc.NewVersion loggingChange.MinVersion = .ok l

/-- The module `name` is present and its version either fails to parse or is
strictly below `vmin`. -/
def violatesMinimum (vc : VersionComparator) (modules : ModuleMap) (name : String)
    (vmin : vc.Version) : Bool :=
  match modules name with
  | none => false
  | some s =>
    match vc.NewVersion s with
    | .error _ => true
    | .ok c => vc.LessThan c vmin

/-- The module `name` is absent, or its version parses and is at or above
`vmin`. -/
def meetsMinimum (vc : VersionComparator) (modules : ModuleMap) (name : String)
    (vmin : vc.Version) : Bool :=
  match modules name with
  | none => true
  | some s =>
    match vc.NewVersion s with
    | .error _ => false
    | .ok c => vc.GreaterThanOrEqual c vmin

/-- The message starts by naming the module: `Module '<name>'`. -/
def namesModule (msg name : String) : Bool :=
  ("Module '" ++ name ++ "'").data.isPrefixOf msg.data

/-! ## Inputs of the test suite -/

/-- All four rule modules exactly at their minimum. -/
def atMinimumModules : ModuleMap :=
  ofBindings [("auth", "v0.6.0"), ("logging", "v5.2.0"), ("networking", "v3.0.0"),
    ("monitoring", "v4.0.1")]

/-- The auth module below its minimum, the other three at theirs. -/
def oldAuthModules : ModuleMap :=
  ofBindings [("auth", "v0.5.0"), ("logging", "v5.2.0"), ("networking", "v3.0.0"),
    ("monitoring", "v4.0.1")]

/-- All four rule modules below their minimum. -/
def allOldModules : ModuleMap :=
  ofBindings [("auth", "v0.5.0"), ("logging", "v5.1.0"), ("networking", "v2.9.0"),
    ("monitoring", "v4.0.0")]

/-- Modules that no rule names, some with malformed versions. -/
def otherModules : ModuleMap :=
  ofBindings [("aws", "v4.2.0"), ("dr", "not-a-version"), ("ingress", ""),
    ("opa", "v1.x"), ("tracing", "1.0.0")]

/-- A malformed auth version together with a logging version below its
minimum. -/
def malformedAuthModules : ModuleMap :=
  ofBindings [("auth", "not-a-version"), ("logging", "v5.1.0")]

/-! ## Preflight checks for Kubernetes 1.35

A shallow embedding of the two files `kubernetes_1_35_checks.go`, of the
packages `onpremises/create` and `kfddistribution/create`. Command output is
text (`string(out)`), a command that fails carries the text of its error, and
logging is left out. A probe returns `none` for a nil error and `some t` for an
error of text `t`. -/

/-- Go `unicode.IsSpace`: the white space characters that `strings.TrimSpace`
removes. -/
def unicodeIsSpace (c : Char) : Bool :=
  (9 ≤ c.toNat && c.toNat ≤ 13) || c.toNat == 32 || c.toNat == 0x85 || c.toNat == 0xA0 ||
  c.toNat == 0x1680 || (0x2000 ≤ c.toNat && c.toNat ≤ 0x200A) || c.toNat == 0x2028 ||
  c.toNat == 0x2029 || c.toNat == 0x202F || c.toNat == 0x205F || c.toNat == 0x3000

/-- Removal of leading and trailing white space from a character list. -/
def trimSpaceChars (cs : List Char) : List Char :=
  ((cs.dropWhile unicodeIsSpace).reverse.dropWhile unicodeIsSpace).reverse

/-- Go `strings.TrimSpace(s)`. -/
def stringsTrimSpace (s : String) : String :=
  String.mk (trimSpaceChars s.data)

/-- Go `strings.Split(s, sep)` for a separator of one character. -/
def stringsSplit (s : String) (sep : Char) : List String :=
  (splitChars sep s.data).map String.mk

/-- Go `strings.ToLower` restricted to the letters `A` to `Z`; it agrees with
Go on ASCII text. The probes take the lower-casing function as a parameter, and
this one is used on concrete inputs. -/
def asciiToLower (s : String) : String :=
  String.mk (s.data.map Char.toLower)

/-- The result of a command: its output, or the text of its error. -/
abbrev CmdOutput := Except String String

/-- The host command executor of `execx.NewStdExecutor()`:
`executor.Cmd(name, args...).Output()`. -/
abbrev Executor := String → List String → CmdOutput

/-- The cluster command runner: `kubeRunner.Exec(args...)`. -/
abbrev KubeRunner := List String → CmdOutput

/-- The arguments of the cluster query for the command line of kube-proxy. -/
def kubeProxyQuery : List String :=
  ["get", "ds", "-n", "kube-system", "-l", "component=kube-proxy", "-o",
    "jsonpath=\x7b.items[*].spec.template.spec.containers[*].command\x7d"]

/-- The arguments of the cluster query for the OS images of the nodes. -/
def nodeOSQuery : List String :=
  ["get", "nodes", "-o", "jsonpath=\x7b.items[*].status.nodeInfo.osImage\x7d"]

/-- The finding of the proxy-mode probe. -/
def ipvsFinding : String :=
  "kube-proxy: IPVS mode detected - IPVS is deprecated in Kubernetes 1.35 and will be removed in future versions. " ++
    "Plan migration to nftables for next cluster update"

namespace OnPremises

/-- The error type `Kubernetes135ChecksError` of the on-premises package. -/
structure Kubernetes135ChecksError where
  Blockers : List String
  Warnings : List String
deriving DecidableEq, Repr

/-- The method `Kubernetes135ChecksError.Error`. -/
def Kubernetes135ChecksError.Error (e : Kubernetes135ChecksError) : String :=
  let msg := ""
  let msg :=
    if e.Blockers.length > 0 then
      e.Blockers.foldl (fun msg b => msg ++ ("  - " ++ b ++ "\n"))
        (msg ++ "BLOCKER ISSUES (must fix):\n")
    else msg
  let msg :=
    if e.Warnings.length > 0 then
      e.Warnings.foldl (fun msg w => msg ++ ("  - " ++ w ++ "\n"))
        (msg ++ "WARNINGS (recommended to fix):\n")
    else msg
  msg

/-- The method `Kubernetes135ChecksError.HasBlockers`. -/
def Kubernetes135ChecksError.HasBlockers (e : Kubernetes135ChecksError) : Bool :=
  e.Blockers.length > 0

/-- Modelled from the spec: the type `PreFlight` is declared outside the
sources; the probes read its field `kubeRunner`, the spec's
ClusterCommandRunner "`exec(args: sequence of string) -> (output: bytes,
error)`", which is nil when no kubeconfig is available. -/
structure PreFlight where
  kubeRunner : Option KubeRunner

/-- The probe `checkCgroupV2`. -/
def checkCgroupV2 (executor : Executor) : Option String :=
  match executor "stat" ["-fc", "%T", "/sys/fs/cgroup/"] with
  | .error _ => some "cgroup v2: cannot determine cgroup version on host"
  | .ok out =>
    let cgroupVersion := stringsTrimSpace out
    if cgroupVersion ≠ "cgroup2fs" then
      some ("cgroup v2: BLOCKER - cgroup v1 detected but Kubernetes 1.35 requires cgroup v2. " ++
        "Upgrade to Ubuntu 22.04+, RHEL/CentOS 9+, or Debian 12+")
    else none

/-- The probe `checkContainerdVersion`. -/
def checkContainerdVersion (executor : Executor) : Option String :=
  match executor "containerd" ["--version"] with
  | .error _ =>
    some "containerd: cannot determine version - ensure containerd is installed and in PATH"
  | .ok out =>
    let version := stringsTrimSpace out
    if !stringsContains version "v2." && !stringsContains version "v3." then
      some ("containerd: BLOCKER - containerd 1.x is EOL and not supported in Kubernetes 1.35. " ++
        "Upgrade to containerd 2.0 or later. Current: " ++ version)
    else none

/-- The probe `checkKubeProxyIPVS`. -/
def checkKubeProxyIPVS (p : PreFlight) : Option String :=
  match p.kubeRunner with
  | none => none
  | some kubeRunner =>
    match kubeRunner kubeProxyQuery with
    | .error _ => none
    | .ok out =>
      let output := stringsTrimSpace out
      if stringsContains output "--proxy-mode=ipvs" || stringsContains output "ipvs" then
        some ipvsFinding
      else none

/-- The whitelist test in the loop of `checkNodeOSCompatibility`: the value of
`isSupported` for a lower-cased image. -/
def isSupported (osLower : String) : Bool :=
  if stringsContains osLower "ubuntu" && stringsContains osLower "22.04" then true
  else if stringsContains osLower "ubuntu" &&
      (stringsContains osLower "24." || stringsContains osLower "25.") then true
  else if stringsContains osLower "rhel" &&
      (stringsContains osLower "9." || stringsContains osLower "10.") then true
  else if stringsContains osLower "centos" && stringsContains osLower "9" then true
  else if stringsContains osLower "debian" &&
      (stringsContains osLower "12" || stringsContains osLower "13") then true
  else false

/-- One iteration of the loop of `checkNodeOSCompatibility`, with `toLower` for
`strings.ToLower`. -/
def checkImage (toLower : String → String) (unsupportedOS : List String)
    (osImage : String) : List String :=
  if osImage = "" then unsupportedOS
  else if !isSupported (toLower osImage) then unsupportedOS ++ [osImage]
  else unsupportedOS

/-- The probe `checkNodeOSCompatibility`, with `toLower` for
`strings.ToLower`. -/
def checkNodeOSCompatibility (toLower : String → String) (p : PreFlight) : Option String :=
  match p.kubeRunner with
  | none => none
  | some kubeRunner =>
    match kubeRunner nodeOSQuery with
    | .error _ => none
    | .ok out =>
      let osImages := stringsSplit (stringsTrimSpace out) ' '
      let unsupportedOS := osImages.foldl (checkImage toLower) []
      if unsupportedOS.length > 0 then
        some ("node OS: some nodes run unsupported OS versions: " ++
          stringsJoin unsupportedOS ", " ++ ". " ++
          "Kubernetes 1.35 requires Ubuntu 22.04+, RHEL/CentOS 9+, or Debian 12+")
      else none

/-- The body of `CheckKubernetes135Compatibility` once its four probes have
returned `cgroup`, `containerd`, `kubeProxy` and `nodeOS`: the first two are
appended to the blockers, the last two to the warnings, and the report is
returned as the error when it has blockers. -/
def collectChecks (cgroup containerd kubeProxy nodeOS : Option String) :
    Option Kubernetes135ChecksError :=
  let checks : Kubernetes135ChecksError := { Blockers := [], Warnings := [] }
  let checks := match cgroup with
    | some err => { checks with Blockers := checks.Blockers ++ [err] }
    | none => checks
  let checks := match containerd with
    | some err => { checks with Blockers := checks.Blockers ++ [err] }
    | none => checks
  let checks := match kubeProxy with
    | some err => { checks with Warnings := checks.Warnings ++ [err] }
    | none => checks
  let checks := match nodeOS with
    | some err => { checks with Warnings := checks.Warnings ++ [err] }
    | none => checks
  if checks.HasBlockers then some checks else none

/-- The method `PreFlight.CheckKubernetes135Compatibility` of the on-premises
package. -/
def CheckKubernetes135Compatibility (executor : Executor) (toLower : String → String)
    (p : PreFlight) : Option Kubernetes135ChecksError :=
  collectChecks (checkCgroupV2 executor) (checkContainerdVersion executor)
    (checkKubeProxyIPVS p) (checkNodeOSCompatibility toLower p)

end OnPremises

namespace KFDDistribution

/-- The error type `Kubernetes135ChecksError` of the kfddistribution package. -/
structure Kubernetes135ChecksError where
  Blockers : List String
  Warnings : List String
deriving DecidableEq, Repr

/-- The method `Kubernetes135ChecksError.Error`. -/
def Kubernetes135ChecksError.Error (e : Kubernetes135ChecksError) : String :=
  let msg := ""
  let msg :=
    if e.Blockers.length > 0 then
      e.Blockers.foldl (fun msg b => msg ++ ("  - " ++ b ++ "\n"))
        (msg ++ "BLOCKER ISSUES (must fix):\n")
    else msg
  let msg :=
    if e.Warnings.length > 0 then
      e.Warnings.foldl (fun msg w => msg ++ ("  - " ++ w ++ "\n"))
        (msg ++ "WARNINGS (recommended to fix):\n")
    else msg
  msg

/-- The method `Kubernetes135ChecksError.HasBlockers`. -/
def Kubernetes135ChecksError.HasBlockers (e : Kubernetes135ChecksError) : Bool :=
  e.Blockers.length > 0

/-- Modelled from the spec: the type `PreFlight` is declared outside the
sources; the probes read its field `kubeRunner`, the spec's
ClusterCommandRunner, which is nil when no kubeconfig is available. -/
structure PreFlight where
  kubeRunner : Option KubeRunner

/-- The probe `checkKubeProxyIPVS`. -/
def checkKubeProxyIPVS (p : PreFlight) : Option String :=
  match p.kubeRunner with
  | none => none
  | some kubeRunner =>
    match kubeRunner kubeProxyQuery with
    | .error _ => none
    | .ok out =>
      let output := stringsTrimSpace out
      if stringsContains output "--proxy-mode=ipvs" || stringsContains output "ipvs" then
        some ipvsFinding
      else none

/-- The whitelist test in the loop of `checkNodeOSCompatibility`: the value of
`isSupported` for a lower-cased image. -/
def isSupported (osLower : String) : Bool :=
  if stringsContains osLower "ubuntu" && stringsContains osLower "22.04" then true
  else if stringsContains osLower "ubuntu" &&
      (stringsContains osLower "24." || stringsContains osLower "25.") then true
  else if stringsContains osLower "rhel" &&
      (stringsContains osLower "9." || stringsContains osLower "10.") then true
  else if stringsContains osLower "centos" && stringsContains osLower "9" then true
  else if stringsContains osLower "debian" &&
      (stringsContains osLower "12" || stringsContains osLower "13") then true
  else if stringsContains osLower "amazonlinux" || stringsContains osLower "al2" then true
  else false

/-- One iteration of the loop of `checkNodeOSCompatibility`, with `toLower` for
`strings.ToLower`. -/
def checkImage (toLower : String → String) (unsupportedOS : List String)
    (osImage : String) : List String :=
  if osImage = "" then unsupportedOS
  else if !isSupported (toLower osImage) then unsupportedOS ++ [osImage]
  else unsupportedOS

/-- The probe `checkNodeOSCompatibility`, with `toLower` for
`strings.ToLower`. -/
def checkNodeOSCompatibility (toLower : String → String) (p : PreFlight) : Option String :=
  match p.kubeRunner with
  | none => none
  | some kubeRunner =>
    match kubeRunner nodeOSQuery with
    | .error _ => none
    | .ok out =>
      let osImages := stringsSplit (stringsTrimSpace out) ' '
      let unsupportedOS := osImages.foldl (checkImage toLower) []
      if unsupportedOS.length > 0 then
        some ("node OS: some nodes run unsupported OS versions: " ++
          stringsJoin unsupportedOS ", " ++ ". " ++
          "Kubernetes 1.35 requires Ubuntu 22.04+, RHEL/CentOS 9+, Debian 12+, or Amazon Linux 2")
      else none

/-- The body of `CheckKubernetes135Compatibility` once its two probes have
returned `kubeProxy` and `nodeOS`: both are appended to the warnings, and the
report is returned as the error when it has blockers. -/
def collectChecks (kubeProxy nodeOS : Option String) : Option Kubernetes135ChecksError :=
  let checks : Kubernetes135ChecksError := { Blockers := [], Warnings := [] }
  let checks := match kubeProxy with
    | some err => { checks with Warnings := checks.Warnings ++ [err] }
    | none => checks
  let checks := match nodeOS with
    | some err => { checks with Warnings := checks.Warnings ++ [err] }
    | none => checks
  if checks.HasBlockers then some checks else none

/-- The value of `checks` in `CheckKubernetes135Compatibility` once its two
probes have returned `kubeProxy` and `nodeOS`, before the test for blockers. -/
def checksAfterProbes (kubeProxy nodeOS : Option String) : Kubernetes135ChecksError :=
  let checks : Kubernetes135ChecksError := { Blockers := [], Warnings := [] }
  let checks := match kubeProxy with
    | some err => { checks with Warnings := checks.Warnings ++ [err] }
    | none => checks
  let checks := match nodeOS with
    | some err => { checks with Warnings := checks.Warnings ++ [err] }
    | none => checks
  checks

/-- The method `PreFlight.CheckKubernetes135Compatibility` of the
kfddistribution package. -/
def CheckKubernetes135Compatibility (toLower : String → String) (p : PreFlight) :
    Option Kubernetes135ChecksError :=
  collectChecks (checkKubeProxyIPVS p) (checkNodeOSCompatibility toLower p)

end KFDDistribution

/-- The lines "  - x" of a report section, one per item, each ended by a
newline. -/
def bulletLines : List String → String
  | [] => ""
  | x :: xs => "  - " ++ x ++ "\n" ++ bulletLines xs

/-- A host on which every command fails. -/
def failingExecutor : Executor := fun _ _ => .error "exit status 1"

/-- A host on which every command prints `out`. -/
def printingExecutor (out : String) : Executor := fun _ _ => .ok out

/-- A cluster whose every command fails. -/
def failingRunner : KubeRunner := fun _ => .error "connection refused"

/-- A cluster whose every command prints `out`. -/
def printingRunner (out : String) : KubeRunner := fun _ => .ok out

/-- A cluster on which the query `query` fails and every other command prints
`out`. -/
def runnerFailingOn (query : List String) (out : String) : KubeRunner :=
  fun args => if args = query then .error "connection refused" else .ok out

/-! ## Lemmas on the loops of `Validate` -/

theorem lessThan_eq_not_greaterThanOrEqual (vc : VersionComparator) (a b : vc.Version) :
    vc.LessThan a b = !vc.GreaterThanOrEqual a b := by
  unfold VersionComparator.LessThan VersionComparator.GreaterThanOrEqual
  cases vc.Compare a b <;> rfl

theorem checkChange_append (vc : VersionComparator) (modules : ModuleMap)
    (bc : KubernetesBreakingChanges) (errors : List String) (change : ModuleBreakingChange) :
    checkChange vc modules bc errors change =
      errors ++ checkChange vc modules bc [] change := by
  unfold checkChange
  cases hm : modules change.Module with
  | none => simp
  | some s =>
    cases hmin : vc.NewVersion change.MinVersion with
    | error e => simp
    | ok vmin =>
      cases hs : vc.NewVersion s with
      | error e => simp [hs]
      | ok c => by_cases h : vc.LessThan c vmin = true <;> simp [hs, h]

theorem foldl_checkChange (vc : VersionComparator) (modules : ModuleMap)
    (bc : KubernetesBreakingChanges) (changes : List ModuleBreakingChange)
    (errors : List String) :
    changes.foldl (checkChange vc modules bc) errors =
      errors ++ changes.flatMap (checkChange vc modules bc []) := by
  induction changes generalizing errors with
  | nil => simp
  | cons c cs ih =>
    rw [List.foldl_cons, ih, checkChange_append, List.flatMap_cons, List.append_assoc]

theorem checkChange_absent (vc : VersionComparator) (modules : ModuleMap)
    (bc : KubernetesBreakingChanges) (change : ModuleBreakingChange)
    (h : modules change.Module = none) :
    checkChange vc modules bc [] change = [] := by
  simp [checkChange, h]

theorem checkChange_invalid (vc : VersionComparator) (modules : ModuleMap)
    (bc : KubernetesBreakingChanges) (change : ModuleBreakingChange)
    (s e : String) (vmin : vc.Version)
    (h : modules change.Module = some s) (hmin : vc.NewVersion change.MinVersion = .ok vmin)
    (hs : vc.NewVersion s = .error e) :
    checkChange vc modules bc [] change = [invalidFormatMessage change s] := by
  simp [checkChange, h, hmin, hs]

theorem checkChange_parsed (vc : VersionComparator) (modules : ModuleMap)
    (bc : KubernetesBreakingChanges) (change : ModuleBreakingChange)
    (s : String) (c vmin : vc.Version)
    (h : modules change.Module = some s) (hmin : vc.NewVersion change.MinVersion = .ok vmin)
    (hs : vc.NewVersion s = .ok c) :
    checkChange vc modules bc [] change =
      if vc.LessThan c vmin then [incompatibleMessage bc change s] else [] := by
  by_cases hlt : vc.LessThan c vmin = true <;> simp [checkChange, h, hmin, hs, hlt]

theorem checkChange_length (vc : VersionComparator) (modules : ModuleMap)
    (bc : KubernetesBreakingChanges) (change : ModuleBreakingChange) (vmin : vc.Version)
    (hmin : vc.NewVersion change.MinVersion = .ok vmin) :
    (checkChange vc modules bc [] change).length =
      if violatesMinimum vc modules change.Module vmin then 1 else 0 := by
  unfold checkChange violatesMinimum
  cases hm : modules change.Module with
  | none => simp
  | some s =>
    cases hs : vc.NewVersion s with
    | error e => simp [hmin, hs]
    | ok c => by_cases h : vc.LessThan c vmin = true <;> simp [hmin, hs, h]

theorem checkChange_meets (vc : VersionComparator) (modules : ModuleMap)
    (bc : KubernetesBreakingChanges) (change : ModuleBreakingChange) (vmin : vc.Version)
    (hmin : vc.NewVersion change.MinVersion = .ok vmin)
    (h : meetsMinimum vc modules change.Module vmin = true) :
    checkChange vc modules bc [] change = [] := by
  unfold meetsMinimum at h
  unfold checkChange
  cases hm : modules change.Module with
  | none => simp
  | some s =>
    cases hs : vc.NewVersion s with
    | error e => simp [hm, hs] at h
    | ok c =>
      simp only [hm, hs] at h
      simp [hmin, hs, lessThan_eq_not_greaterThanOrEqual, h]

/-- The messages of the registry group 1.35.0, rule by rule. -/
theorem checkGroup_changes135 (vc : VersionComparator) (modules : ModuleMap)
    (P k : vc.Version) (hk : vc.NewVersion changes135.KubernetesVersion = .ok k) :
    checkGroup vc modules P [] changes135 =
      if vc.GreaterThanOrEqual P k then
        checkChange vc modules changes135 [] networkingChange ++
        checkChange vc modules changes135 [] monitoringChange ++
        checkChange vc modules changes135 [] authChange ++
        checkChange vc modules changes135 [] loggingChange
      else [] := by
  unfold checkGroup
  rw [hk]
  simp only [foldl_checkChange]
  by_cases h : vc.GreaterThanOrEqual P k = true
  · simp [h, changes135]
  · simp [h]

/-- The result of `Validate` on a target that parses, in terms of the
accumulated messages. -/
theorem validate_of_parsed (vc : VersionComparator) (t : String) (P : vc.Version)
    (modules : ModuleMap) (hP : vc.NewVersion t = .ok P) :
    BreakingChangeValidator.Validate vc ⟨t, modules⟩ =
      (checkGroup vc modules P [] changes135,
        if checkGroup vc modules P [] changes135 = [] then none
        else some ("module compatibility check failed: " ++
          toString (checkGroup vc modules P [] changes135).length ++
          " incompatibilities detected")) := by
  unfold BreakingChangeValidator.Validate
  simp only [hP, getKubernetesBreakingChanges, List.foldl_cons, List.foldl_nil]
  cases hE : checkGroup vc modules P [] changes135 with
  | nil => simp
  | cons x xs => simp

/-- The result of `Validate` on a target that fails to parse. -/
theorem validate_of_unparsed (vc : VersionComparator) (t e : String)
    (modules : ModuleMap) (ht : vc.NewVersion t = .error e) :
    BreakingChangeValidator.Validate vc ⟨t, modules⟩ =
      ([], some ("invalid kubernetes version format: " ++ e)) := by
  unfold BreakingChangeValidator.Validate
  simp only [ht]

theorem checkGroup_nil_of_changes_nil (vc : VersionComparator) (modules : ModuleMap)
    (P : vc.Version) (bc : KubernetesBreakingChanges)
    (h : ∀ c ∈ bc.Changes, checkChange vc modules bc [] c = []) :
    checkGroup vc modules P [] bc = [] := by
  unfold checkGroup
  cases hk : vc.NewVersion bc.KubernetesVersion with
  | error e => rfl
  | ok k =>
    by_cases hge : vc.GreaterThanOrEqual P k = true
    · simp only [hge, if_true, foldl_checkChange, List.nil_append]
      simpa [List.flatMap_eq_nil_iff] using h
    · simp [hge]

theorem checkChange_update (vc : VersionComparator) (modules : ModuleMap)
    (bc : KubernetesBreakingChanges) (errors : List String) (change : ModuleBreakingChange)
    (name : String) (x : Option String) (h : name ≠ change.Module) :
    checkChange vc (Function.update modules name x) bc errors change =
      checkChange vc modules bc errors change := by
  unfold checkChange
  rw [Function.update_noteq (Ne.symm h)]

theorem checkModuleCompatibility_of_validate_nil (vc : VersionComparator) (t : String)
    (modules : ModuleMap)
    (h : BreakingChangeValidator.Validate vc ⟨t, modules⟩ = ([], none)) :
    CheckModuleCompatibility vc t modules = none := by
  unfold CheckModuleCompatibility NewBreakingChangeValidator
  simp only [h]

theorem checkChange_cases (vc : VersionComparator) (modules : ModuleMap)
    (bc : KubernetesBreakingChanges) (change : ModuleBreakingChange) :
    checkChange vc modules bc [] change = [] ∨
    ∃ s, checkChange vc modules bc [] change = [invalidFormatMessage change s] ∨
      checkChange vc modules bc [] change = [incompatibleMessage bc change s] := by
  unfold checkChange
  cases hm : modules change.Module with
  | none => simp
  | some s =>
    cases hmin : vc.NewVersion change.MinVersion with
    | error e => simp
    | ok vmin =>
      cases hs : vc.NewVersion s with
      | error e => exact Or.inr ⟨s, Or.inl (by simp [hs])⟩
      | ok c =>
        by_cases h : vc.LessThan c vmin = true
        · exact Or.inr ⟨s, Or.inr (by simp [hs, h])⟩
        · exact Or.inl (by simp [hs, h])

/-- A message recorded for a rule of the registry names the module of that
rule and of no other rule. -/
theorem namesModule_of_mem_checkChange (vc : VersionComparator) (modules : ModuleMap)
    (c c' : ModuleBreakingChange) (hc : c ∈ changes135.Changes)
    (hc' : c' ∈ changes135.Changes) (x : String)
    (hx : x ∈ checkChange vc modules changes135 [] c) :
    namesModule x c'.Module = decide (c' = c) := by
  rcases checkChange_cases vc modules changes135 c with h | ⟨s, h | h⟩
  · rw [h] at hx; exact absurd hx (List.not_mem_nil x)
  all_goals
    rw [h, List.mem_singleton] at hx
    subst hx
    simp only [changes135, List.mem_cons, List.mem_singleton, List.not_mem_nil,
      or_false] at hc hc'
    rcases hc with rfl | rfl | rfl | rfl <;> rcases hc' with rfl | rfl | rfl | rfl <;> rfl

theorem ofBindings_foldl_eq_some_iff (bs : List (String × String)) (m0 : ModuleMap)
    (hnd : (bs.map Prod.fst).Nodup) (key v : String) :
    bs.foldl (fun (m : ModuleMap) b => Function.update m b.1 (some b.2)) m0 key = some v ↔
      (key, v) ∈ bs ∨ (key ∉ bs.map Prod.fst ∧ m0 key = some v) := by
  induction bs generalizing m0 with
  | nil => simp
  | cons b rest ih =>
    obtain ⟨k0, v0⟩ := b
    simp only [List.map_cons, List.nodup_cons] at hnd
    rw [List.foldl_cons, ih _ hnd.2]
    by_cases hk : key = k0
    · subst hk
      have hnot : ∀ w, (key, w) ∉ rest := fun w hw =>
        hnd.1 (List.mem_map.mpr ⟨(key, w), hw, rfl⟩)
      simp [hnot, hnd.1, eq_comm]
    · simp [hk, Function.update_noteq hk]

theorem ofBindings_eq_some_iff (bs : List (String × String))
    (hnd : (bs.map Prod.fst).Nodup) (key v : String) :
    ofBindings bs key = some v ↔ (key, v) ∈ bs := by
  unfold ofBindings
  rw [ofBindings_foldl_eq_some_iff bs emptyModules hnd]
  simp [emptyModules]

theorem ofBindings_perm (bs bs' : List (String × String))
    (hnd : (bs.map Prod.fst).Nodup) (hp : bs.Perm bs') :
    ofBindings bs = ofBindings bs' := by
  have hnd' : (bs'.map Prod.fst).Nodup := (hp.map Prod.fst).nodup_iff.mp hnd
  funext key
  apply Option.ext
  intro v
  simp only [Option.mem_def]
  rw [ofBindings_eq_some_iff bs hnd, ofBindings_eq_some_iff bs' hnd']
  exact hp.mem_iff

theorem registry_module_injective (c c' : ModuleBreakingChange)
    (hc : c ∈ changes135.Changes) (hc' : c' ∈ changes135.Changes)
    (h : c.Module = c'.Module) : c = c' := by
  simp only [changes135, List.mem_cons, List.mem_singleton, List.not_mem_nil,
    or_false] at hc hc'
  rcases hc with rfl | rfl | rfl | rfl <;> rcases hc' with rfl | rfl | rfl | rfl <;>
    first
    | rfl
    | exact absurd h (by decide)

theorem parsesMinimums_mem (vc : VersionComparator) (n m a l : vc.Version)
    (hmin : ParsesMinimums vc n m a l) (c : ModuleBreakingChange)
    (hc : c ∈ changes135.Changes) : ∃ vmin, vc.NewVersion c.MinVersion = .ok vmin := by
  obtain ⟨pn, pm, pa, pl⟩ := hmin
  simp only [changes135, List.mem_cons, List.mem_singleton, List.not_mem_nil,
    or_false] at hc
  rcases hc with rfl | rfl | rfl | rfl
  · exact ⟨n, pn⟩
  · exact ⟨m, pm⟩
  · exact ⟨a, pa⟩
  · exact ⟨l, pl⟩

theorem checkChange_nil_or_names (vc : VersionComparator) (modules : ModuleMap)
    (c : ModuleBreakingChange) (hc : c ∈ changes135.Changes) :
    checkChange vc modules changes135 [] c = [] ∨
    ∃ x, checkChange vc modules changes135 [] c = [x] ∧ namesModule x c.Module = true := by
  rcases checkChange_cases vc modules changes135 c with h | ⟨s, h | h⟩
  · exact Or.inl h
  · refine Or.inr ⟨_, h, ?_⟩
    rw [namesModule_of_mem_checkChange vc modules c c hc hc _ (by rw [h]; simp)]
    simp
  · refine Or.inr ⟨_, h, ?_⟩
    rw [namesModule_of_mem_checkChange vc modules c c hc hc _ (by rw [h]; simp)]
    simp

theorem fired_cons (c : ModuleBreakingChange) (r : List String)
    (hr : r = [] ∨ ∃ x, r = [x] ∧ namesModule x c.Module = true)
    (rest : List ModuleBreakingChange) (msgs : List String)
    (h : ∃ fired : List ModuleBreakingChange, fired.Sublist rest ∧
      List.Forall₂ (fun c msg => namesModule msg c.Module = true) fired msgs) :
    ∃ fired : List ModuleBreakingChange, fired.Sublist (c :: rest) ∧
      List.Forall₂ (fun c msg => namesModule msg c.Module = true) fired (r ++ msgs) := by
  obtain ⟨fired, hsub, hall⟩ := h
  rcases hr with rfl | ⟨x, rfl, hx⟩
  · exact ⟨fired, hsub.cons c, by simpa using hall⟩
  · exact ⟨c :: fired, hsub.cons₂ c, by simpa using ⟨hx, hall⟩⟩

/-! ## Lemmas on `strings.Contains` -/

theorem containsChars_iff_infix_chars (sub s : List Char) :
    containsChars sub s = true ↔ sub <:+: s := by
  induction s with
  | nil => simp [containsChars, List.infix_nil]
  | cons c cs ih =>
    rw [containsChars, Bool.or_eq_true, ih, List.isPrefixOf_iff_prefix,
      List.infix_cons_iff]

theorem stringsContains_iff_infix_data (s sub : String) :
    stringsContains s sub = true ↔ sub.data <:+: s.data := by
  unfold stringsContains
  exact containsChars_iff_infix_chars _ _

theorem stringsContains_self (s : String) : stringsContains s s = true :=
  (stringsContains_iff_infix_data s s).mpr (List.infix_refl _)

theorem stringsContains_append_left (a b x : String)
    (h : stringsContains a x = true) : stringsContains (a ++ b) x = true := by
  rw [stringsContains_iff_infix_data] at h ⊢
  rw [String.data_append]
  exact h.trans (List.prefix_append _ _).isInfix

theorem stringsContains_append_right (a b x : String)
    (h : stringsContains b x = true) : stringsContains (a ++ b) x = true := by
  rw [stringsContains_iff_infix_data] at h ⊢
  rw [String.data_append]
  exact h.trans (List.suffix_append _ _).isInfix

/-! ## The properties of the validator -/

/-- C1: applicability is monotonic accumulation. For a target that parses to
`P`, with the registry version "1.35.0" parsing to `k`, the messages of
`Validate` are the results of the four rules of the group (networking,
monitoring, auth, logging, each evaluated on the module map) when `P >= k`, and
there are none otherwise; whenever `P < k` the result is zero messages and a
nil error, whatever the module map holds. -/
theorem validate_applies_group_iff_target_ge (vc : VersionComparator) (t : String)
    (P k : vc.Version) (modules : ModuleMap)
    (hP : vc.NewVersion t = .ok P)
    (hk : vc.NewVersion changes135.KubernetesVersion = .ok k) :
    (BreakingChangeValidator.Validate vc ⟨t, modules⟩).1 =
      (if vc.GreaterThanOrEqual P k then
        checkChange vc modules changes135 [] networkingChange ++
        checkChange vc modules changes135 [] monitoringChange ++
        checkChange vc modules changes135 [] authChange ++
        checkChange vc modules changes135 [] loggingChange
      else []) ∧
    (vc.LessThan P k = true →
      BreakingChangeValidator.Validate vc ⟨t, modules⟩ = ([], none)) := by
  rw [validate_of_parsed vc t P modules hP, checkGroup_changes135 vc modules P k hk]
  refine ⟨rfl, fun hlt => ?_⟩
  rw [lessThan_eq_not_greaterThanOrEqual] at hlt
  have hge : vc.GreaterThanOrEqual P k = false := by simpa using hlt
  simp [hge]

/-- Witness of C1: with the concrete comparator, target "1.34.0" gives no
message and no error although all four modules are below their minimum, and
target "1.35.5" gives the four messages. -/
theorem validate_applies_group_iff_target_ge_witness :
    BreakingChangeValidator.Validate semver ⟨"1.34.0", allOldModules⟩ = ([], none) ∧
    (BreakingChangeValidator.Validate semver ⟨"1.35.5", allOldModules⟩).1 =
      [incompatibleMessage changes135 networkingChange "v2.9.0",
       incompatibleMessage changes135 monitoringChange "v4.0.0",
       incompatibleMessage changes135 authChange "v0.5.0",
       incompatibleMessage changes135 loggingChange "v5.1.0"] :=
  ⟨(validate_applies_group_iff_target_ge semver "1.34.0"
      (⟨1, 34, 0, none⟩ : SemVersion) (⟨1, 35, 0, none⟩ : SemVersion) allOldModules
      rfl rfl).2 rfl,
   (validate_applies_group_iff_target_ge semver "1.35.5"
      (⟨1, 35, 5, none⟩ : SemVersion) (⟨1, 35, 0, none⟩ : SemVersion) allOldModules
      rfl rfl).1.trans rfl⟩

/-- C2: complete-pass counting. For a target at or above 1.35.0, the number of
messages of `Validate` is the number of registry rules (networking >= v3.0.0,
monitoring >= v4.0.1, auth >= v0.6.0, logging >= v5.2.0) whose module is present
with a version that fails to parse or is strictly below the minimum. -/
theorem validate_counts_every_violation (vc : VersionComparator) (t : String)
    (P k n m a l : vc.Version) (modules : ModuleMap)
    (hP : vc.NewVersion t = .ok P)
    (hk : vc.NewVersion changes135.KubernetesVersion = .ok k)
    (hge : vc.GreaterThanOrEqual P k = true)
    (hmin : ParsesMinimums vc n m a l) :
    (BreakingChangeValidator.Validate vc ⟨t, modules⟩).1.length =
      (if violatesMinimum vc modules "networking" n then 1 else 0) +
      (if violatesMinimum vc modules "monitoring" m then 1 else 0) +
      (if violatesMinimum vc modules "auth" a then 1 else 0) +
      (if violatesMinimum vc modules "logging" l then 1 else 0) := by
  obtain ⟨hn, hm, ha, hl⟩ := hmin
  rw [validate_of_parsed vc t P modules hP, checkGroup_changes135 vc modules P k hk]
  simp only [hge, if_true, List.length_append]
  rw [checkChange_length vc modules changes135 networkingChange n hn,
    checkChange_length vc modules changes135 monitoringChange m hm,
    checkChange_length vc modules changes135 authChange a ha,
    checkChange_length vc modules changes135 loggingChange l hl]
  rfl

/-- Witness of C2: with the concrete comparator and target "1.35.0", auth
v0.5.0 with the other three modules at their minimum gives exactly one
message, and all four modules below their minimum give exactly four. -/
theorem validate_counts_every_violation_witness :
    (BreakingChangeValidator.Validate semver ⟨"1.35.0", oldAuthModules⟩).1.length = 1 ∧
    (BreakingChangeValidator.Validate semver ⟨"1.35.0", allOldModules⟩).1.length = 4 :=
  ⟨(validate_counts_every_violation semver "1.35.0"
      (⟨1, 35, 0, none⟩ : SemVersion) (⟨1, 35, 0, none⟩ : SemVersion)
      (⟨3, 0, 0, none⟩ : SemVersion) (⟨4, 0, 1, none⟩ : SemVersion)
      (⟨0, 6, 0, none⟩ : SemVersion) (⟨5, 2, 0, none⟩ : SemVersion) oldAuthModules
      rfl rfl rfl ⟨rfl, rfl, rfl, rfl⟩).trans (by decide),
   (validate_counts_every_violation semver "1.35.0"
      (⟨1, 35, 0, none⟩ : SemVersion) (⟨1, 35, 0, none⟩ : SemVersion)
      (⟨3, 0, 0, none⟩ : SemVersion) (⟨4, 0, 1, none⟩ : SemVersion)
      (⟨0, 6, 0, none⟩ : SemVersion) (⟨5, 2, 0, none⟩ : SemVersion) allOldModules
      rfl rfl rfl ⟨rfl, rfl, rfl, rfl⟩).trans (by decide)⟩

/-- C3: equality passes the minimum check. For a target that parses and a
module map in which every module named by a registry rule is absent or has a
version that parses and is at or above the rule's minimum, `Validate` returns
zero messages and a nil error and `CheckModuleCompatibility` returns nil. -/
theorem validate_passes_at_or_above_minimum (vc : VersionComparator) (t : String)
    (P n m a l : vc.Version) (modules : ModuleMap)
    (hP : vc.NewVersion t = .ok P)
    (hmin : ParsesMinimums vc n m a l)
    (hn : meetsMinimum vc modules "networking" n = true)
    (hm : meetsMinimum vc modules "monitoring" m = true)
    (ha : meetsMinimum vc modules "auth" a = true)
    (hl : meetsMinimum vc modules "logging" l = true) :
    BreakingChangeValidator.Validate vc ⟨t, modules⟩ = ([], none) ∧
    CheckModuleCompatibility vc t modules = none := by
  obtain ⟨pn, pm, pa, pl⟩ := hmin
  have hnil : checkGroup vc modules P [] changes135 = [] := by
    apply checkGroup_nil_of_changes_nil
    intro c hc
    simp only [changes135, List.mem_cons, List.mem_singleton, List.not_mem_nil,
      or_false] at hc
    rcases hc with rfl | rfl | rfl | rfl
    · exact checkChange_meets vc modules _ networkingChange n pn hn
    · exact checkChange_meets vc modules _ monitoringChange m pm hm
    · exact checkChange_meets vc modules _ authChange a pa ha
    · exact checkChange_meets vc modules _ loggingChange l pl hl
  have hv : BreakingChangeValidator.Validate vc ⟨t, modules⟩ = ([], none) := by
    rw [validate_of_parsed vc t P modules hP, hnil]
    rfl
  exact ⟨hv, checkModuleCompatibility_of_validate_nil vc t modules hv⟩

/-- Witness of C3: with the concrete comparator, target "1.35.0" and all four
modules exactly at their minimum give no message, no error, and a nil result of
`CheckModuleCompatibility`. -/
theorem validate_passes_at_or_above_minimum_witness :
    BreakingChangeValidator.Validate semver ⟨"1.35.0", atMinimumModules⟩ = ([], none) ∧
    CheckModuleCompatibility semver "1.35.0" atMinimumModules = none :=
  validate_passes_at_or_above_minimum semver "1.35.0"
    (⟨1, 35, 0, none⟩ : SemVersion)
    (⟨3, 0, 0, none⟩ : SemVersion) (⟨4, 0, 1, none⟩ : SemVersion)
    (⟨0, 6, 0, none⟩ : SemVersion) (⟨5, 2, 0, none⟩ : SemVersion) atMinimumModules
    rfl ⟨rfl, rfl, rfl, rfl⟩ (by decide) (by decide) (by decide) (by decide)

/-- C4: absence never fails. For a target that parses, a module map holding
none of networking, monitoring, auth and logging gives zero messages and a nil
error; and for every target, setting or removing the entry of a module that no
rule names leaves the result of `Validate` unchanged. -/
theorem validate_ignores_unnamed_modules (vc : VersionComparator) (t : String)
    (modules : ModuleMap) :
    (∀ P : vc.Version, vc.NewVersion t = .ok P →
      modules "networking" = none → modules "monitoring" = none →
      modules "auth" = none → modules "logging" = none →
      BreakingChangeValidator.Validate vc ⟨t, modules⟩ = ([], none)) ∧
    (∀ (name : String) (x : Option String),
      name ≠ "networking" → name ≠ "monitoring" → name ≠ "auth" → name ≠ "logging" →
      BreakingChangeValidator.Validate vc ⟨t, Function.update modules name x⟩ =
        BreakingChangeValidator.Validate vc ⟨t, modules⟩) := by
  constructor
  · intro P hP hn hm ha hl
    have hnil : checkGroup vc modules P [] changes135 = [] := by
      apply checkGroup_nil_of_changes_nil
      intro c hc
      simp only [changes135, List.mem_cons, List.mem_singleton, List.not_mem_nil,
        or_false] at hc
      rcases hc with rfl | rfl | rfl | rfl
      · exact checkChange_absent vc modules _ networkingChange hn
      · exact checkChange_absent vc modules _ monitoringChange hm
      · exact checkChange_absent vc modules _ authChange ha
      · exact checkChange_absent vc modules _ loggingChange hl
    rw [validate_of_parsed vc t P modules hP, hnil]
    rfl
  · intro name x hn hm ha hl
    have hgroup : ∀ (P : vc.Version) (errors : List String),
        checkGroup vc (Function.update modules name x) P errors changes135 =
          checkGroup vc modules P errors changes135 := by
      intro P errors
      unfold checkGroup
      simp only [changes135, List.foldl_cons, List.foldl_nil]
      rw [checkChange_update vc modules _ _ networkingChange name x hn,
        checkChange_update vc modules _ _ monitoringChange name x hm,
        checkChange_update vc modules _ _ authChange name x ha,
        checkChange_update vc modules _ _ loggingChange name x hl]
    unfold BreakingChangeValidator.Validate
    simp only [getKubernetesBreakingChanges, List.foldl_cons, List.foldl_nil, hgroup]

/-- Witness of C4: with the concrete comparator and target "1.35.0", the empty
map and a map of other modules (some with malformed versions) give no message
and no error, and adding an entry for "aws" to a map changes nothing. -/
theorem validate_ignores_unnamed_modules_witness :
    BreakingChangeValidator.Validate semver ⟨"1.35.0", emptyModules⟩ = ([], none) ∧
    BreakingChangeValidator.Validate semver ⟨"1.35.0", otherModules⟩ = ([], none) ∧
    BreakingChangeValidator.Validate semver
        ⟨"1.35.0", Function.update oldAuthModules "aws" (some "not-a-version")⟩ =
      BreakingChangeValidator.Validate semver ⟨"1.35.0", oldAuthModules⟩ :=
  ⟨(validate_ignores_unnamed_modules semver "1.35.0" emptyModules).1
      (⟨1, 35, 0, none⟩ : SemVersion) rfl rfl rfl rfl rfl,
   (validate_ignores_unnamed_modules semver "1.35.0" otherModules).1
      (⟨1, 35, 0, none⟩ : SemVersion) rfl (by decide) (by decide) (by decide) (by decide),
   (validate_ignores_unnamed_modules semver "1.35.0" oldAuthModules).2
      "aws" (some "not-a-version") (by decide) (by decide) (by decide) (by decide)⟩

/-- C5: an invalid target short-circuits with no partial results. When the
target version fails to parse, `Validate` returns no message and the error
"invalid kubernetes version format: ..." wrapping the parse error, whatever
the module map holds, and `CheckModuleCompatibility` returns that same
error. -/
theorem validate_invalid_target_short_circuits (vc : VersionComparator) (t e : String)
    (modules : ModuleMap) (ht : vc.NewVersion t = .error e) :
    BreakingChangeValidator.Validate vc ⟨t, modules⟩ =
      ([], some ("invalid kubernetes version format: " ++ e)) ∧
    (BreakingChangeValidator.Validate vc ⟨t, modules⟩).2 ≠ none ∧
    CheckModuleCompatibility vc t modules =
      some ("invalid kubernetes version format: " ++ e) ∧
    CheckModuleCompatibility vc t modules ≠ none := by
  have hv : BreakingChangeValidator.Validate vc ⟨t, modules⟩ =
      ([], some ("invalid kubernetes version format: " ++ e)) :=
    validate_of_unparsed vc t e modules ht
  have hc : CheckModuleCompatibility vc t modules =
      some ("invalid kubernetes version format: " ++ e) := by
    unfold CheckModuleCompatibility NewBreakingChangeValidator
    simp only [hv]
    rfl
  refine ⟨hv, ?_, hc, ?_⟩
  · rw [hv]; simp
  · rw [hc]; simp

/-- Witness of C5: with the concrete comparator, target "invalid" fails with an
error and no message although all four modules are below their minimum. -/
theorem validate_invalid_target_short_circuits_witness :
    BreakingChangeValidator.Validate semver ⟨"invalid", allOldModules⟩ =
      ([], some "invalid kubernetes version format: invalid semantic version: invalid") ∧
    CheckModuleCompatibility semver "invalid" allOldModules ≠ none :=
  ⟨(validate_invalid_target_short_circuits semver "invalid"
      "invalid semantic version: invalid" allOldModules rfl).1,
   (validate_invalid_target_short_circuits semver "invalid"
      "invalid semantic version: invalid" allOldModules rfl).2.2.2⟩

/-- C6: a malformed component version is recorded and does not abort the
batch. For a target at or above 1.35.0 and a rule module present with a version
that fails to parse, the messages of `Validate` are `pre`, then the message
"Module '<M>' has invalid version format '<s>'", then `post`, where `pre` and
`post` together are the messages obtained with the entry of the module removed
and none of them names the module. -/
theorem validate_records_malformed_and_continues (vc : VersionComparator) (t : String)
    (P k n m a l : vc.Version) (modules : ModuleMap) (change : ModuleBreakingChange)
    (s e : String)
    (hP : vc.NewVersion t = .ok P)
    (hk : vc.NewVersion changes135.KubernetesVersion = .ok k)
    (hge : vc.GreaterThanOrEqual P k = true)
    (hmin : ParsesMinimums vc n m a l)
    (hc : change ∈ changes135.Changes)
    (hs : modules change.Module = some s)
    (he : vc.NewVersion s = .error e) :
    ∃ pre post : List String,
      (BreakingChangeValidator.Validate vc ⟨t, modules⟩).1 =
        pre ++ [invalidFormatMessage change s] ++ post ∧
      (BreakingChangeValidator.Validate vc
        ⟨t, Function.update modules change.Module none⟩).1 = pre ++ post ∧
      (∀ x ∈ pre ++ post, namesModule x change.Module = false) ∧
      namesModule (invalidFormatMessage change s) change.Module = true ∧
      invalidFormatMessage change s =
        "Module '" ++ change.Module ++ "' has invalid version format '" ++ s ++ "'" := by
  obtain ⟨vmin, hvmin⟩ := parsesMinimums_mem vc n m a l hmin change hc
  have hbad : checkChange vc modules changes135 [] change =
      [invalidFormatMessage change s] :=
    checkChange_invalid vc modules changes135 change s e vmin hs hvmin he
  have hself : checkChange vc (Function.update modules change.Module none) changes135 []
      change = [] :=
    checkChange_absent vc _ changes135 change (Function.update_same _ _ _)
  have hother : ∀ c ∈ changes135.Changes, c ≠ change →
      checkChange vc (Function.update modules change.Module none) changes135 [] c =
        checkChange vc modules changes135 [] c := by
    intro c hcm hne
    apply checkChange_update
    intro heq
    exact hne (registry_module_injective c change hcm hc heq.symm)
  have hnames : ∀ c ∈ changes135.Changes, c ≠ change →
      ∀ x ∈ checkChange vc modules changes135 [] c,
        namesModule x change.Module = false := by
    intro c hcm hne x hx
    rw [namesModule_of_mem_checkChange vc modules c change hcm hc x hx]
    simpa using Ne.symm hne
  have htrue : namesModule (invalidFormatMessage change s) change.Module = true := by
    rw [namesModule_of_mem_checkChange vc modules change change hc hc _
      (by rw [hbad]; simp)]
    simp
  rw [validate_of_parsed vc t P modules hP, validate_of_parsed vc t P _ hP,
    checkGroup_changes135 vc modules P k hk, checkGroup_changes135 vc _ P k hk]
  simp only [hge, if_true]
  have hN : networkingChange ∈ changes135.Changes := by simp [changes135]
  have hM : monitoringChange ∈ changes135.Changes := by simp [changes135]
  have hA : authChange ∈ changes135.Changes := by simp [changes135]
  have hL : loggingChange ∈ changes135.Changes := by simp [changes135]
  have hmem := hc
  simp only [changes135, List.mem_cons, List.mem_singleton, List.not_mem_nil,
    or_false] at hmem
  rcases hmem with rfl | rfl | rfl | rfl
  · refine ⟨[], checkChange vc modules changes135 [] monitoringChange ++
      checkChange vc modules changes135 [] authChange ++
      checkChange vc modules changes135 [] loggingChange, ?_, ?_, ?_, htrue, rfl⟩
    · rw [hbad]; simp
    · rw [hself, hother _ hM (by decide), hother _ hA (by decide),
        hother _ hL (by decide)]
      simp
    · intro x hx
      simp only [List.nil_append, List.mem_append] at hx
      rcases hx with (hx | hx) | hx
      · exact hnames _ hM (by decide) x hx
      · exact hnames _ hA (by decide) x hx
      · exact hnames _ hL (by decide) x hx
  · refine ⟨checkChange vc modules changes135 [] networkingChange,
      checkChange vc modules changes135 [] authChange ++
      checkChange vc modules changes135 [] loggingChange, ?_, ?_, ?_, htrue, rfl⟩
    · rw [hbad]; simp
    · rw [hself, hother _ hN (by decide), hother _ hA (by decide),
        hother _ hL (by decide)]
      simp
    · intro x hx
      simp only [List.mem_append] at hx
      rcases hx with hx | hx | hx
      · exact hnames _ hN (by decide) x hx
      · exact hnames _ hA (by decide) x hx
      · exact hnames _ hL (by decide) x hx
  · refine ⟨checkChange vc modules changes135 [] networkingChange ++
      checkChange vc modules changes135 [] monitoringChange,
      checkChange vc modules changes135 [] loggingChange, ?_, ?_, ?_, htrue, rfl⟩
    · rw [hbad]
    · rw [hself, hother _ hN (by decide), hother _ hM (by decide),
        hother _ hL (by decide)]
      simp
    · intro x hx
      simp only [List.mem_append] at hx
      rcases hx with (hx | hx) | hx
      · exact hnames _ hN (by decide) x hx
      · exact hnames _ hM (by decide) x hx
      · exact hnames _ hL (by decide) x hx
  · refine ⟨checkChange vc modules changes135 [] networkingChange ++
      checkChange vc modules changes135 [] monitoringChange ++
      checkChange vc modules changes135 [] authChange, [], ?_, ?_, ?_, htrue, rfl⟩
    · rw [hbad]; simp
    · rw [hself, hother _ hN (by decide), hother _ hM (by decide),
        hother _ hA (by decide)]
    · intro x hx
      simp only [List.append_nil, List.mem_append] at hx
      rcases hx with (hx | hx) | hx
      · exact hnames _ hN (by decide) x hx
      · exact hnames _ hM (by decide) x hx
      · exact hnames _ hA (by decide) x hx

/-- Witness of C6: with the concrete comparator and target "1.35.0", auth
"not-a-version" together with logging v5.1.0 gives one message for auth, the
messages without it being those of the map without the auth entry; the two
messages are the one for auth and the one for logging. -/
theorem validate_records_malformed_and_continues_witness :
    (∃ pre post : List String,
      (BreakingChangeValidator.Validate semver ⟨"1.35.0", malformedAuthModules⟩).1 =
        pre ++ [invalidFormatMessage authChange "not-a-version"] ++ post ∧
      (BreakingChangeValidator.Validate semver
        ⟨"1.35.0", Function.update malformedAuthModules authChange.Module none⟩).1 =
          pre ++ post ∧
      (∀ x ∈ pre ++ post, namesModule x authChange.Module = false) ∧
      namesModule (invalidFormatMessage authChange "not-a-version") authChange.Module = true ∧
      invalidFormatMessage authChange "not-a-version" =
        "Module '" ++ authChange.Module ++ "' has invalid version format '" ++
          "not-a-version" ++ "'") ∧
    (BreakingChangeValidator.Validate semver ⟨"1.35.0", malformedAuthModules⟩).1 =
      ["Module 'auth' has invalid version format 'not-a-version'",
       incompatibleMessage changes135 loggingChange "v5.1.0"] :=
  ⟨validate_records_malformed_and_continues semver "1.35.0"
      (⟨1, 35, 0, none⟩ : SemVersion) (⟨1, 35, 0, none⟩ : SemVersion)
      (⟨3, 0, 0, none⟩ : SemVersion) (⟨4, 0, 1, none⟩ : SemVersion)
      (⟨0, 6, 0, none⟩ : SemVersion) (⟨5, 2, 0, none⟩ : SemVersion)
      malformedAuthModules authChange "not-a-version"
      "invalid semantic version: not-a-version"
      rfl rfl rfl ⟨rfl, rfl, rfl, rfl⟩ (by simp [changes135]) rfl rfl,
   rfl⟩

/-- C7: for a target that parses, `Validate` returns a non-nil error exactly
when the message list it returns is non-empty, and a nil error when the list
is empty. -/
theorem validate_error_iff_messages (vc : VersionComparator) (t : String)
    (P : vc.Version) (modules : ModuleMap) (hP : vc.NewVersion t = .ok P) :
    ((BreakingChangeValidator.Validate vc ⟨t, modules⟩).2 ≠ none ↔
      (BreakingChangeValidator.Validate vc ⟨t, modules⟩).1 ≠ []) ∧
    ((BreakingChangeValidator.Validate vc ⟨t, modules⟩).1 = [] →
      (BreakingChangeValidator.Validate vc ⟨t, modules⟩).2 = none) := by
  rw [validate_of_parsed vc t P modules hP]
  by_cases h : checkGroup vc modules P [] changes135 = [] <;> simp [h]

/-- Witness of C7: with the concrete comparator and target "1.35.0", the map
with auth below its minimum gives messages and an error, the map at the
minimums gives neither. -/
theorem validate_error_iff_messages_witness :
    ((BreakingChangeValidator.Validate semver ⟨"1.35.0", oldAuthModules⟩).2 ≠ none ∧
      (BreakingChangeValidator.Validate semver ⟨"1.35.0", oldAuthModules⟩).1 ≠ []) ∧
    (BreakingChangeValidator.Validate semver ⟨"1.35.0", atMinimumModules⟩).2 = none :=
  ⟨⟨(validate_error_iff_messages semver "1.35.0" (⟨1, 35, 0, none⟩ : SemVersion)
        oldAuthModules rfl).1.mpr (by decide), by decide⟩,
   (validate_error_iff_messages semver "1.35.0" (⟨1, 35, 0, none⟩ : SemVersion)
        atMinimumModules rfl).2 rfl⟩

/-- C10: messages come out in registry-definition order and deterministically.
For a target that parses, the messages of `Validate` name, one by one, the
modules of a sublist of the rules networking, monitoring, auth, logging in that
order; and two module maps built from the same bindings (distinct names) in
any two orders give the same result. -/
theorem validate_messages_in_registry_order (vc : VersionComparator) (t : String)
    (P k : vc.Version) (modules : ModuleMap)
    (hP : vc.NewVersion t = .ok P)
    (hk : vc.NewVersion changes135.KubernetesVersion = .ok k) :
    (∃ fired : List ModuleBreakingChange,
      fired.Sublist [networkingChange, monitoringChange, authChange, loggingChange] ∧
      List.Forall₂ (fun c msg => namesModule msg c.Module = true) fired
        (BreakingChangeValidator.Validate vc ⟨t, modules⟩).1) ∧
    (∀ bs bs' : List (String × String), (bs.map Prod.fst).Nodup → bs.Perm bs' →
      BreakingChangeValidator.Validate vc ⟨t, ofBindings bs⟩ =
        BreakingChangeValidator.Validate vc ⟨t, ofBindings bs'⟩) := by
  constructor
  · rw [validate_of_parsed vc t P modules hP, checkGroup_changes135 vc modules P k hk]
    by_cases hge : vc.GreaterThanOrEqual P k = true
    · simp only [hge, if_true, List.append_assoc]
      apply fired_cons _ _ (checkChange_nil_or_names vc modules _ (by simp [changes135]))
      apply fired_cons _ _ (checkChange_nil_or_names vc modules _ (by simp [changes135]))
      apply fired_cons _ _ (checkChange_nil_or_names vc modules _ (by simp [changes135]))
      rw [← List.append_nil (checkChange vc modules changes135 [] loggingChange)]
      apply fired_cons _ _ (checkChange_nil_or_names vc modules _ (by simp [changes135]))
      exact ⟨[], List.Sublist.slnil, List.Forall₂.nil⟩
    · simp only [hge]
      exact ⟨[], List.nil_sublist _, List.Forall₂.nil⟩
  · intro bs bs' hnd hp
    rw [ofBindings_perm bs bs' hnd hp]

/-- Witness of C10: with the concrete comparator and target "1.35.0", the map
written auth, logging, networking, monitoring (all below minimum) gives its
four messages in the order networking, monitoring, auth, logging, and the same
bindings inserted in the reverse order give the same result. -/
theorem validate_messages_in_registry_order_witness :
    (∃ fired : List ModuleBreakingChange,
      fired.Sublist [networkingChange, monitoringChange, authChange, loggingChange] ∧
      List.Forall₂ (fun c msg => namesModule msg c.Module = true) fired
        (BreakingChangeValidator.Validate semver ⟨"1.35.0", allOldModules⟩).1) ∧
    BreakingChangeValidator.Validate semver
        ⟨"1.35.0", ofBindings [("auth", "v0.5.0"), ("logging", "v5.1.0"),
          ("networking", "v2.9.0"), ("monitoring", "v4.0.0")]⟩ =
      BreakingChangeValidator.Validate semver
        ⟨"1.35.0", ofBindings [("monitoring", "v4.0.0"), ("networking", "v2.9.0"),
          ("logging", "v5.1.0"), ("auth", "v0.5.0")]⟩ :=
  ⟨(validate_messages_in_registry_order semver "1.35.0"
      (⟨1, 35, 0, none⟩ : SemVersion) (⟨1, 35, 0, none⟩ : SemVersion) allOldModules
      rfl rfl).1,
   (validate_messages_in_registry_order semver "1.35.0"
      (⟨1, 35, 0, none⟩ : SemVersion) (⟨1, 35, 0, none⟩ : SemVersion) allOldModules
      rfl rfl).2 _ _ (by decide) (List.reverse_perm _).symm⟩

/-- Counterexample to C8 as stated: with the concrete comparator, target
"1.35.0" and auth v0.5.0 (the other modules at their minimum), `Validate`
returns one message and the error "module compatibility check failed: 1
incompatibilities detected", whose text does not contain the message. -/
theorem validate_error_omits_message_text :
    BreakingChangeValidator.Validate semver ⟨"1.35.0", oldAuthModules⟩ =
      (["Module 'auth' version v0.5.0 is incompatible with Kubernetes 1.35.0. Required: v0.6.0 or later. Kubernetes 1.35 requires auth module v0.6.0+ for WebSocket RBAC validation"],
        some "module compatibility check failed: 1 incompatibilities detected") ∧
    stringsContains "module compatibility check failed: 1 incompatibilities detected"
      "Module 'auth' version v0.5.0 is incompatible with Kubernetes 1.35.0. Required: v0.6.0 or later. Kubernetes 1.35 requires auth module v0.6.0+ for WebSocket RBAC validation"
      = false :=
  ⟨rfl, rfl⟩

/-- C8, amended: whenever `Validate` returns a non-empty message list, the
error it returns is "module compatibility check failed: N incompatibilities
detected" with N the number of returned messages in decimal, so the error's
text contains that number. -/
theorem validate_error_reports_count (vc : VersionComparator)
    (v : BreakingChangeValidator)
    (h : (BreakingChangeValidator.Validate vc v).1 ≠ []) :
    (BreakingChangeValidator.Validate vc v).2 =
      some ("module compatibility check failed: " ++
        toString (BreakingChangeValidator.Validate vc v).1.length ++
        " incompatibilities detected") ∧
    stringsContains ("module compatibility check failed: " ++
        toString (BreakingChangeValidator.Validate vc v).1.length ++
        " incompatibilities detected")
      (toString (BreakingChangeValidator.Validate vc v).1.length) = true := by
  refine ⟨?_, stringsContains_append_left _ _ _
    (stringsContains_append_right _ _ _ (stringsContains_self _))⟩
  obtain ⟨t, modules⟩ := v
  cases hP : vc.NewVersion t with
  | error e =>
    rw [validate_of_unparsed vc t e modules hP] at h
    exact absurd rfl h
  | ok P =>
    rw [validate_of_parsed vc t P modules hP] at h ⊢
    simp only [ne_eq] at h
    simp only [h, if_false]

/-- Witness of C8, amended: with the concrete comparator, target "1.35.0" and
all four modules below their minimum, the error is "module compatibility check
failed: 4 incompatibilities detected". -/
theorem validate_error_reports_count_witness :
    (BreakingChangeValidator.Validate semver ⟨"1.35.0", allOldModules⟩).2 =
      some "module compatibility check failed: 4 incompatibilities detected" :=
  (validate_error_reports_count semver ⟨"1.35.0", allOldModules⟩ (by decide)).1.trans rfl

set_option maxRecDepth 8000 in
/-- Counterexample to C9 as stated: with the concrete comparator, target
"1.35.5" and auth v0.5.0 (the other modules at their minimum), the one
recorded message cites Kubernetes 1.35.0 and does not contain the target
"1.35.5" that the caller passed. -/
theorem validate_message_omits_passed_target :
    (BreakingChangeValidator.Validate semver ⟨"1.35.5", oldAuthModules⟩).1 =
      ["Module 'auth' version v0.5.0 is incompatible with Kubernetes 1.35.0. Required: v0.6.0 or later. Kubernetes 1.35 requires auth module v0.6.0+ for WebSocket RBAC validation"] ∧
    stringsContains
      "Module 'auth' version v0.5.0 is incompatible with Kubernetes 1.35.0. Required: v0.6.0 or later. Kubernetes 1.35 requires auth module v0.6.0+ for WebSocket RBAC validation"
      "1.35.5" = false :=
  ⟨rfl, rfl⟩

/-- C9, amended: incompatibility messages are self-contained. The message
recorded for a rule whose module is present with a parseable version below the
minimum is "Module '<module>' version <current> is incompatible with
Kubernetes <group version>. Required: <minimum> or later. <description>",
followed by " See: <url>" when the rule has a migration URL; it contains the
module name, the current version as supplied, the Kubernetes version of the
registry group of the rule, the minimum and the description. For a target at
or above 1.35.0 and a rule of the registry, that message, citing the group
version "1.35.0", is among the messages of `Validate`. -/
theorem validate_incompatible_message_self_contained (vc : VersionComparator)
    (modules : ModuleMap) :
    (∀ (bc : KubernetesBreakingChanges) (change : ModuleBreakingChange) (s : String),
      incompatibleMessage bc change s =
        "Module '" ++ change.Module ++ "' version " ++ s ++
          " is incompatible with Kubernetes " ++ bc.KubernetesVersion ++ ". " ++
          "Required: " ++ change.MinVersion ++ " or later. " ++ change.Description ++
          (if change.MigrationURL = "" then "" else " See: " ++ change.MigrationURL) ∧
      stringsContains (incompatibleMessage bc change s) change.Module = true ∧
      stringsContains (incompatibleMessage bc change s) s = true ∧
      stringsContains (incompatibleMessage bc change s) bc.KubernetesVersion = true ∧
      stringsContains (incompatibleMessage bc change s) change.MinVersion = true ∧
      stringsContains (incompatibleMessage bc change s) change.Description = true) ∧
    (∀ (bc : KubernetesBreakingChanges) (change : ModuleBreakingChange)
      (errors : List String) (s : String) (c vmin : vc.Version),
      modules change.Module = some s →
      vc.NewVersion change.MinVersion = .ok vmin →
      vc.NewVersion s = .ok c →
      vc.LessThan c vmin = true →
      checkChange vc modules bc errors change =
        errors ++ [incompatibleMessage bc change s]) ∧
    (∀ (t : String) (P k c vmin : vc.Version) (change : ModuleBreakingChange) (s : String),
      vc.NewVersion t = .ok P →
      vc.NewVersion changes135.KubernetesVersion = .ok k →
      vc.GreaterThanOrEqual P k = true →
      change ∈ changes135.Changes →
      modules change.Module = some s →
      vc.NewVersion change.MinVersion = .ok vmin →
      vc.NewVersion s = .ok c →
      vc.LessThan c vmin = true →
      incompatibleMessage changes135 change s ∈
        (BreakingChangeValidator.Validate vc ⟨t, modules⟩).1 ∧
      changes135.KubernetesVersion = "1.35.0") := by
  refine ⟨?_, ?_, ?_⟩
  · intro bc change s
    have htext : incompatibleMessage bc change s =
        "Module '" ++ change.Module ++ "' version " ++ s ++
          " is incompatible with Kubernetes " ++ bc.KubernetesVersion ++ ". " ++
          "Required: " ++ change.MinVersion ++ " or later. " ++ change.Description ++
          (if change.MigrationURL = "" then "" else " See: " ++ change.MigrationURL) := by
      unfold incompatibleMessage
      by_cases hurl : change.MigrationURL = "" <;> simp [hurl]
    refine ⟨htext, ?_, ?_, ?_, ?_, ?_⟩ <;> rw [htext]
    · iterate 10 apply stringsContains_append_left
      exact stringsContains_append_right _ _ _ (stringsContains_self _)
    · iterate 8 apply stringsContains_append_left
      exact stringsContains_append_right _ _ _ (stringsContains_self _)
    · iterate 6 apply stringsContains_append_left
      exact stringsContains_append_right _ _ _ (stringsContains_self _)
    · iterate 3 apply stringsContains_append_left
      exact stringsContains_append_right _ _ _ (stringsContains_self _)
    · apply stringsContains_append_left
      exact stringsContains_append_right _ _ _ (stringsContains_self _)
  · intro bc change errors s c vmin hs hmin hc hlt
    rw [checkChange_append, checkChange_parsed vc modules bc change s c vmin hs hmin hc]
    simp [hlt]
  · intro t P k c vmin change s hP hk hge hmem hs hmin hc hlt
    refine ⟨?_, rfl⟩
    have hrec : checkChange vc modules changes135 [] change =
        [incompatibleMessage changes135 change s] := by
      rw [checkChange_parsed vc modules changes135 change s c vmin hs hmin hc]
      simp [hlt]
    rw [validate_of_parsed vc t P modules hP, checkGroup_changes135 vc modules P k hk]
    simp only [hge, if_true, List.mem_append]
    simp only [changes135, List.mem_cons, List.mem_singleton, List.not_mem_nil,
      or_false] at hmem
    rcases hmem with rfl | rfl | rfl | rfl
    · exact Or.inl (Or.inl (Or.inl (by rw [hrec]; simp)))
    · exact Or.inl (Or.inl (Or.inr (by rw [hrec]; simp)))
    · exact Or.inl (Or.inr (by rw [hrec]; simp))
    · exact Or.inr (by rw [hrec]; simp)

/-- Witness of C9, amended: with the concrete comparator, a rule carrying a
migration URL records a message that ends with " See: <url>", and with target
"1.35.5" and auth v0.5.0 the message citing Kubernetes 1.35.0 is among the
messages of `Validate`. -/
theorem validate_incompatible_message_self_contained_witness :
    checkChange semver oldAuthModules changes135 []
        { Module := "auth", MinVersion := "v0.6.0", Description := "Upgrade auth",
          MigrationURL := "https://example.org/auth" } =
      ["Module 'auth' version v0.5.0 is incompatible with Kubernetes 1.35.0. Required: v0.6.0 or later. Upgrade auth See: https://example.org/auth"] ∧
    "Module 'auth' version v0.5.0 is incompatible with Kubernetes 1.35.0. Required: v0.6.0 or later. Kubernetes 1.35 requires auth module v0.6.0+ for WebSocket RBAC validation" ∈
      (BreakingChangeValidator.Validate semver ⟨"1.35.5", oldAuthModules⟩).1 :=
  ⟨((validate_incompatible_message_self_contained semver oldAuthModules).2.1
      changes135
      { Module := "auth", MinVersion := "v0.6.0", Description := "Upgrade auth",
        MigrationURL := "https://example.org/auth" }
      [] "v0.5.0" (⟨0, 5, 0, none⟩ : SemVersion) (⟨0, 6, 0, none⟩ : SemVersion)
      rfl rfl rfl rfl).trans rfl,
   ((validate_incompatible_message_self_contained semver oldAuthModules).2.2
      "1.35.5" (⟨1, 35, 5, none⟩ : SemVersion) (⟨1, 35, 0, none⟩ : SemVersion)
      (⟨0, 5, 0, none⟩ : SemVersion) (⟨0, 6, 0, none⟩ : SemVersion)
      authChange "v0.5.0" rfl rfl rfl (by simp [changes135]) rfl rfl rfl rfl).1⟩

/-! ## Lemmas on the preflight checks -/

theorem foldl_bullet (xs : List String) (init : String) :
    xs.foldl (fun msg b => msg ++ ("  - " ++ b ++ "\n")) init = init ++ bulletLines xs := by
  induction xs generalizing init with
  | nil => simp [bulletLines]
  | cons x xs ih =>
    rw [List.foldl_cons, ih, bulletLines, String.append_assoc]

theorem onPremises_error_eq (bs ws : List String) :
    OnPremises.Kubernetes135ChecksError.Error ⟨bs, ws⟩ =
      (if bs = [] then "" else "BLOCKER ISSUES (must fix):\n" ++ bulletLines bs) ++
      (if ws = [] then "" else "WARNINGS (recommended to fix):\n" ++ bulletLines ws) := by
  unfold OnPremises.Kubernetes135ChecksError.Error
  simp only [foldl_bullet]
  cases bs <;> cases ws <;> simp [String.append_assoc]

theorem kfdDistribution_error_eq (bs ws : List String) :
    KFDDistribution.Kubernetes135ChecksError.Error ⟨bs, ws⟩ =
      (if bs = [] then "" else "BLOCKER ISSUES (must fix):\n" ++ bulletLines bs) ++
      (if ws = [] then "" else "WARNINGS (recommended to fix):\n" ++ bulletLines ws) := by
  unfold KFDDistribution.Kubernetes135ChecksError.Error
  simp only [foldl_bullet]
  cases bs <;> cases ws <;> simp [String.append_assoc]

theorem onPremises_collectChecks_eq (cg ct kp os : Option String) :
    OnPremises.collectChecks cg ct kp os =
      if cg.toList ++ ct.toList = [] then none
      else some ⟨cg.toList ++ ct.toList, kp.toList ++ os.toList⟩ := by
  cases cg <;> cases ct <;> cases kp <;> cases os <;> rfl

theorem kfdDistribution_collectChecks_eq (kp os : Option String) :
    KFDDistribution.collectChecks kp os = none := by
  cases kp <;> cases os <;> rfl

theorem onPremises_kubeProxy_of_error (run : KubeRunner) (e : String)
    (h : run kubeProxyQuery = .error e) :
    OnPremises.checkKubeProxyIPVS ⟨some run⟩ = none := by
  simp [OnPremises.checkKubeProxyIPVS, h]

theorem onPremises_nodeOS_of_error (toLower : String → String) (run : KubeRunner)
    (e : String) (h : run nodeOSQuery = .error e) :
    OnPremises.checkNodeOSCompatibility toLower ⟨some run⟩ = none := by
  simp [OnPremises.checkNodeOSCompatibility, h]

theorem kfdDistribution_kubeProxy_of_error (run : KubeRunner) (e : String)
    (h : run kubeProxyQuery = .error e) :
    KFDDistribution.checkKubeProxyIPVS ⟨some run⟩ = none := by
  simp [KFDDistribution.checkKubeProxyIPVS, h]

theorem kfdDistribution_nodeOS_of_error (toLower : String → String) (run : KubeRunner)
    (e : String) (h : run nodeOSQuery = .error e) :
    KFDDistribution.checkNodeOSCompatibility toLower ⟨some run⟩ = none := by
  simp [KFDDistribution.checkNodeOSCompatibility, h]

/-! ## The properties of the preflight checks -/

/-- Counterexample to C11 as stated: on a host where every command fails, the
probes `checkCgroupV2` and `checkContainerdVersion` each return a finding, and
`CheckKubernetes135Compatibility` returns a report with these two findings as
blockers. -/
theorem host_probe_unavailable_is_blocker :
    OnPremises.checkCgroupV2 failingExecutor =
      some "cgroup v2: cannot determine cgroup version on host" ∧
    OnPremises.checkContainerdVersion failingExecutor =
      some "containerd: cannot determine version - ensure containerd is installed and in PATH" ∧
    OnPremises.CheckKubernetes135Compatibility failingExecutor asciiToLower
        ⟨some failingRunner⟩ =
      some ⟨["cgroup v2: cannot determine cgroup version on host",
        "containerd: cannot determine version - ensure containerd is installed and in PATH"],
        []⟩ :=
  ⟨rfl, rfl, rfl⟩

/-- C11, amended: probe-unavailable is an assumed pass for the cluster probes.
Probe by probe: when the cluster command of `checkKubeProxyIPVS` returns an
error the probe returns no error, and likewise `checkNodeOSCompatibility`, in
both flavors and whatever the other query does; such a probe adds nothing to
the report, whose warnings are then the finding of the other cluster probe
alone and whose blockers are the findings of the host probes. The two host
probes of the on-premises flavor are mandatory: when the host command returns
an error, `checkCgroupV2` and `checkContainerdVersion` each return a finding,
which the run records as a blocker, whether the cluster is reachable,
unreachable or not configured. -/
theorem cluster_probe_unavailable_is_pass (toLower : String → String) :
    (∀ (run : KubeRunner) (e : String), run kubeProxyQuery = .error e →
      OnPremises.checkKubeProxyIPVS ⟨some run⟩ = none ∧
      KFDDistribution.checkKubeProxyIPVS ⟨some run⟩ = none ∧
      (∀ (executor : Executor) (r : OnPremises.Kubernetes135ChecksError),
        OnPremises.CheckKubernetes135Compatibility executor toLower ⟨some run⟩ = some r →
        r.Warnings = (OnPremises.checkNodeOSCompatibility toLower ⟨some run⟩).toList ∧
        r.Blockers = (OnPremises.checkCgroupV2 executor).toList ++
          (OnPremises.checkContainerdVersion executor).toList) ∧
      (KFDDistribution.checksAfterProbes (KFDDistribution.checkKubeProxyIPVS ⟨some run⟩)
          (KFDDistribution.checkNodeOSCompatibility toLower ⟨some run⟩)).Warnings =
        (KFDDistribution.checkNodeOSCompatibility toLower ⟨some run⟩).toList ∧
      (KFDDistribution.checksAfterProbes (KFDDistribution.checkKubeProxyIPVS ⟨some run⟩)
          (KFDDistribution.checkNodeOSCompatibility toLower ⟨some run⟩)).Blockers = []) ∧
    (∀ (run : KubeRunner) (e : String), run nodeOSQuery = .error e →
      OnPremises.checkNodeOSCompatibility toLower ⟨some run⟩ = none ∧
      KFDDistribution.checkNodeOSCompatibility toLower ⟨some run⟩ = none ∧
      (∀ (executor : Executor) (r : OnPremises.Kubernetes135ChecksError),
        OnPremises.CheckKubernetes135Compatibility executor toLower ⟨some run⟩ = some r →
        r.Warnings = (OnPremises.checkKubeProxyIPVS ⟨some run⟩).toList ∧
        r.Blockers = (OnPremises.checkCgroupV2 executor).toList ++
          (OnPremises.checkContainerdVersion executor).toList) ∧
      (KFDDistribution.checksAfterProbes (KFDDistribution.checkKubeProxyIPVS ⟨some run⟩)
          (KFDDistribution.checkNodeOSCompatibility toLower ⟨some run⟩)).Warnings =
        (KFDDistribution.checkKubeProxyIPVS ⟨some run⟩).toList ∧
      (KFDDistribution.checksAfterProbes (KFDDistribution.checkKubeProxyIPVS ⟨some run⟩)
          (KFDDistribution.checkNodeOSCompatibility toLower ⟨some run⟩)).Blockers = []) ∧
    (∀ p : KFDDistribution.PreFlight,
      KFDDistribution.CheckKubernetes135Compatibility toLower p = none) ∧
    (∀ (executor : Executor) (e : String) (p : OnPremises.PreFlight),
      executor "stat" ["-fc", "%T", "/sys/fs/cgroup/"] = .error e →
      OnPremises.checkCgroupV2 executor =
        some "cgroup v2: cannot determine cgroup version on host" ∧
      ∃ r, OnPremises.CheckKubernetes135Compatibility executor toLower p = some r ∧
        "cgroup v2: cannot determine cgroup version on host" ∈ r.Blockers) ∧
    (∀ (executor : Executor) (e : String) (p : OnPremises.PreFlight),
      executor "containerd" ["--version"] = .error e →
      OnPremises.checkContainerdVersion executor =
        some "containerd: cannot determine version - ensure containerd is installed and in PATH" ∧
      ∃ r, OnPremises.CheckKubernetes135Compatibility executor toLower p = some r ∧
        "containerd: cannot determine version - ensure containerd is installed and in PATH" ∈
          r.Blockers) := by
  have hreport : ∀ (executor : Executor) (p : OnPremises.PreFlight)
      (r : OnPremises.Kubernetes135ChecksError),
      OnPremises.CheckKubernetes135Compatibility executor toLower p = some r →
      r.Warnings = (OnPremises.checkKubeProxyIPVS p).toList ++
        (OnPremises.checkNodeOSCompatibility toLower p).toList ∧
      r.Blockers = (OnPremises.checkCgroupV2 executor).toList ++
        (OnPremises.checkContainerdVersion executor).toList := by
    intro executor p r hr
    unfold OnPremises.CheckKubernetes135Compatibility at hr
    rw [onPremises_collectChecks_eq] at hr
    split at hr
    · exact absurd hr (by simp)
    · simp only [Option.some.injEq] at hr
      rw [← hr]
      exact ⟨rfl, rfl⟩
  have hkfd : ∀ kp os : Option String,
      (KFDDistribution.checksAfterProbes kp os).Warnings = kp.toList ++ os.toList ∧
      (KFDDistribution.checksAfterProbes kp os).Blockers = [] := by
    intro kp os
    cases kp <;> cases os <;> exact ⟨rfl, rfl⟩
  refine ⟨?_, ?_, ?_, ?_, ?_⟩
  · intro run e h
    have h1 := onPremises_kubeProxy_of_error run e h
    have h3 := kfdDistribution_kubeProxy_of_error run e h
    refine ⟨h1, h3, ?_, ?_, ?_⟩
    · intro executor r hr
      have := hreport executor ⟨some run⟩ r hr
      rw [h1] at this
      exact ⟨by simpa using this.1, this.2⟩
    · rw [(hkfd _ _).1, h3]
      rfl
    · exact (hkfd _ _).2
  · intro run e h
    have h2 := onPremises_nodeOS_of_error toLower run e h
    have h4 := kfdDistribution_nodeOS_of_error toLower run e h
    refine ⟨h2, h4, ?_, ?_, ?_⟩
    · intro executor r hr
      have := hreport executor ⟨some run⟩ r hr
      rw [h2] at this
      exact ⟨by simpa using this.1, this.2⟩
    · rw [(hkfd _ _).1, h4]
      simp
    · exact (hkfd _ _).2
  · intro p
    unfold KFDDistribution.CheckKubernetes135Compatibility
    exact kfdDistribution_collectChecks_eq _ _
  · intro executor e p he
    have hcg : OnPremises.checkCgroupV2 executor =
        some "cgroup v2: cannot determine cgroup version on host" := by
      simp [OnPremises.checkCgroupV2, he]
    refine ⟨hcg, ?_⟩
    unfold OnPremises.CheckKubernetes135Compatibility
    rw [hcg, onPremises_collectChecks_eq]
    simp
  · intro executor e p he
    have hct : OnPremises.checkContainerdVersion executor =
        some "containerd: cannot determine version - ensure containerd is installed and in PATH" := by
      simp [OnPremises.checkContainerdVersion, he]
    refine ⟨hct, ?_⟩
    unfold OnPremises.CheckKubernetes135Compatibility
    rw [hct, onPremises_collectChecks_eq]
    cases OnPremises.checkCgroupV2 executor <;> simp

/-- Witness of C11, amended: on a cluster where only the kube-proxy query
fails, the kube-proxy probe returns no finding in both flavors; on a cluster
where only the node OS query fails, the node OS probe returns none; and with a
failing `stat` command the cgroup probe returns its finding when no cluster
runner is configured. -/
theorem cluster_probe_unavailable_is_pass_witness :
    (OnPremises.checkKubeProxyIPVS ⟨some (runnerFailingOn kubeProxyQuery "centos7")⟩ = none ∧
      KFDDistribution.checkKubeProxyIPVS
        ⟨some (runnerFailingOn kubeProxyQuery "centos7")⟩ = none) ∧
    (OnPremises.checkNodeOSCompatibility asciiToLower
        ⟨some (runnerFailingOn nodeOSQuery "ipvs")⟩ = none ∧
      KFDDistribution.checkNodeOSCompatibility asciiToLower
        ⟨some (runnerFailingOn nodeOSQuery "ipvs")⟩ = none) ∧
    (∃ r, OnPremises.CheckKubernetes135Compatibility failingExecutor asciiToLower ⟨none⟩ =
        some r ∧
      "cgroup v2: cannot determine cgroup version on host" ∈ r.Blockers) :=
  ⟨⟨((cluster_probe_unavailable_is_pass asciiToLower).1
        (runnerFailingOn kubeProxyQuery "centos7") "connection refused" rfl).1,
    ((cluster_probe_unavailable_is_pass asciiToLower).1
        (runnerFailingOn kubeProxyQuery "centos7") "connection refused" rfl).2.1⟩,
   ⟨((cluster_probe_unavailable_is_pass asciiToLower).2.1
        (runnerFailingOn nodeOSQuery "ipvs") "connection refused" rfl).1,
    ((cluster_probe_unavailable_is_pass asciiToLower).2.1
        (runnerFailingOn nodeOSQuery "ipvs") "connection refused" rfl).2.1⟩,
   ((cluster_probe_unavailable_is_pass asciiToLower).2.2.2.1
      failingExecutor "exit status 1" ⟨none⟩ rfl).2⟩

/-- C12: only blockers abort. `HasBlockers` is true exactly when the blockers
list is non-empty (both flavors); the on-premises run returns a non-nil error
exactly when the cgroup probe or the containerd probe, the two registered as
blockers, reported a finding, so that any findings of the two warning probes
alone give nil; the kfddistribution run registers no blocker and returns nil
whatever its two warning probes report. -/
theorem only_blockers_abort :
    (∀ e : OnPremises.Kubernetes135ChecksError, e.HasBlockers = true ↔ e.Blockers ≠ []) ∧
    (∀ e : KFDDistribution.Kubernetes135ChecksError, e.HasBlockers = true ↔ e.Blockers ≠ []) ∧
    (∀ cgroup containerd kubeProxy nodeOS : Option String,
      OnPremises.collectChecks cgroup containerd kubeProxy nodeOS ≠ none ↔
        (cgroup ≠ none ∨ containerd ≠ none)) ∧
    (∀ (executor : Executor) (toLower : String → String) (p : OnPremises.PreFlight),
      OnPremises.CheckKubernetes135Compatibility executor toLower p ≠ none ↔
        (OnPremises.checkCgroupV2 executor ≠ none ∨
          OnPremises.checkContainerdVersion executor ≠ none)) ∧
    (∀ kubeProxy nodeOS : Option String,
      OnPremises.collectChecks none none kubeProxy nodeOS = none) ∧
    (∀ kubeProxy nodeOS : Option String,
      KFDDistribution.collectChecks kubeProxy nodeOS = none) ∧
    (∀ (toLower : String → String) (p : KFDDistribution.PreFlight),
      KFDDistribution.CheckKubernetes135Compatibility toLower p = none) := by
  have hcollect : ∀ cgroup containerd kubeProxy nodeOS : Option String,
      OnPremises.collectChecks cgroup containerd kubeProxy nodeOS ≠ none ↔
        (cgroup ≠ none ∨ containerd ≠ none) := by
    intro cg ct kp os
    rw [onPremises_collectChecks_eq]
    cases cg <;> cases ct <;> simp
  refine ⟨?_, ?_, hcollect, ?_, ?_, kfdDistribution_collectChecks_eq, ?_⟩
  · intro e
    cases h : e.Blockers <;> simp [OnPremises.Kubernetes135ChecksError.HasBlockers, h]
  · intro e
    cases h : e.Blockers <;> simp [KFDDistribution.Kubernetes135ChecksError.HasBlockers, h]
  · intro executor toLower p
    exact hcollect _ _ _ _
  · intro kp os
    rw [onPremises_collectChecks_eq]
    rfl
  · intro toLower p
    exact kfdDistribution_collectChecks_eq _ _

/-- C13: report rendering. `Error()` is the blocker section followed by the
warning section, where a section is its heading line followed by one line
"  - item" per item in list order, every line ended by a newline, and a
section of an empty list is left out; the empty report renders as the empty
string, and the two flavors render equal reports to the same text. -/
theorem report_rendering :
    (∀ bs ws : List String,
      OnPremises.Kubernetes135ChecksError.Error ⟨bs, ws⟩ =
        (if bs = [] then "" else "BLOCKER ISSUES (must fix):\n" ++ bulletLines bs) ++
        (if ws = [] then "" else "WARNINGS (recommended to fix):\n" ++ bulletLines ws)) ∧
    (∀ bs ws : List String,
      KFDDistribution.Kubernetes135ChecksError.Error ⟨bs, ws⟩ =
        OnPremises.Kubernetes135ChecksError.Error ⟨bs, ws⟩) ∧
    OnPremises.Kubernetes135ChecksError.Error ⟨[], []⟩ = "" ∧
    (∀ (x : String) (xs : List String),
      bulletLines (x :: xs) = "  - " ++ x ++ "\n" ++ bulletLines xs) ∧
    bulletLines [] = "" :=
  ⟨onPremises_error_eq,
   fun bs ws => (kfdDistribution_error_eq bs ws).trans (onPremises_error_eq bs ws).symm,
   rfl, fun _ _ => rfl, rfl⟩

/-- C14: the on-premises preflight run does not short-circuit. Whenever
`CheckKubernetes135Compatibility` returns a report, its blockers are the
findings of the cgroup probe and of the containerd probe, in that order, and
its warnings are the findings of the kube-proxy probe and of the node OS
probe, in that order, each probe contributing whatever the others returned. -/
theorem onPremises_run_collects_every_finding (executor : Executor)
    (toLower : String → String) (p : OnPremises.PreFlight)
    (r : OnPremises.Kubernetes135ChecksError)
    (h : OnPremises.CheckKubernetes135Compatibility executor toLower p = some r) :
    r.Blockers = (OnPremises.checkCgroupV2 executor).toList ++
      (OnPremises.checkContainerdVersion executor).toList ∧
    r.Warnings = (OnPremises.checkKubeProxyIPVS p).toList ++
      (OnPremises.checkNodeOSCompatibility toLower p).toList ∧
    (∀ cgroup containerd kubeProxy nodeOS : Option String,
      ∀ r' : OnPremises.Kubernetes135ChecksError,
      OnPremises.collectChecks cgroup containerd kubeProxy nodeOS = some r' →
        r'.Blockers = cgroup.toList ++ containerd.toList ∧
        r'.Warnings = kubeProxy.toList ++ nodeOS.toList) := by
  have hgen : ∀ cgroup containerd kubeProxy nodeOS : Option String,
      ∀ r' : OnPremises.Kubernetes135ChecksError,
      OnPremises.collectChecks cgroup containerd kubeProxy nodeOS = some r' →
        r'.Blockers = cgroup.toList ++ containerd.toList ∧
        r'.Warnings = kubeProxy.toList ++ nodeOS.toList := by
    intro cg ct kp os r' hr
    rw [onPremises_collectChecks_eq] at hr
    split at hr
    · exact absurd hr (by simp)
    · simp only [Option.some.injEq] at hr
      rw [← hr]
      exact ⟨rfl, rfl⟩
  have := hgen _ _ _ _ r h
  exact ⟨this.1, this.2, hgen⟩

/-- Witness of C14: on a host where the cgroup probe and the containerd probe
both report a finding and a cluster whose kube-proxy runs in IPVS mode, the
report has the two blockers and the two warnings found in the same run. -/
theorem onPremises_run_collects_every_finding_witness :
    ∃ r, OnPremises.CheckKubernetes135Compatibility (printingExecutor "tmpfs\n")
        asciiToLower ⟨some (printingRunner "ipvs")⟩ = some r ∧
      r.Blockers =
        ["cgroup v2: BLOCKER - cgroup v1 detected but Kubernetes 1.35 requires cgroup v2. Upgrade to Ubuntu 22.04+, RHEL/CentOS 9+, or Debian 12+",
         "containerd: BLOCKER - containerd 1.x is EOL and not supported in Kubernetes 1.35. Upgrade to containerd 2.0 or later. Current: tmpfs"] ∧
      r.Warnings =
        ["kube-proxy: IPVS mode detected - IPVS is deprecated in Kubernetes 1.35 and will be removed in future versions. Plan migration to nftables for next cluster update",
         "node OS: some nodes run unsupported OS versions: ipvs. Kubernetes 1.35 requires Ubuntu 22.04+, RHEL/CentOS 9+, or Debian 12+"] :=
  ⟨_, rfl,
   (onPremises_run_collects_every_finding (printingExecutor "tmpfs\n") asciiToLower
      ⟨some (printingRunner "ipvs")⟩ _ rfl).1.trans rfl,
   (onPremises_run_collects_every_finding (printingExecutor "tmpfs\n") asciiToLower
      ⟨some (printingRunner "ipvs")⟩ _ rfl).2.1.trans rfl⟩

/-! ## Lemmas on trimming and joining -/

theorem infix_dropWhile (p : Char → Bool) (c : Char) (rest l : List Char)
    (hc : p c = false) (h : (c :: rest) <:+: l) : (c :: rest) <:+: l.dropWhile p := by
  induction l with
  | nil => exact h
  | cons x xs ih =>
    rw [List.dropWhile_cons]
    by_cases hx : p x = true
    · simp only [hx, if_true]
      rcases List.infix_cons_iff.mp h with hpre | hin
      · obtain ⟨t, ht⟩ := hpre
        simp only [List.cons_append, List.cons.injEq] at ht
        rw [ht.1, hx] at hc
        exact absurd hc (by decide)
      · exact ih hin
    · simp only [hx]
      exact h

theorem trimSpaceChars_infix_self (l : List Char) : trimSpaceChars l <:+: l := by
  unfold trimSpaceChars
  have h1 : (l.dropWhile unicodeIsSpace).reverse.dropWhile unicodeIsSpace <:+
      (l.dropWhile unicodeIsSpace).reverse := List.dropWhile_suffix _
  have h2 : ((l.dropWhile unicodeIsSpace).reverse.dropWhile unicodeIsSpace).reverse <+:
      l.dropWhile unicodeIsSpace := by
    rw [← List.reverse_suffix, List.reverse_reverse]
    exact h1
  exact h2.isInfix.trans (List.dropWhile_suffix _).isInfix

/-- A block that starts and ends with a character that is not white space
occurs in the trimmed text exactly when it occurs in the text. -/
theorem infix_trimSpaceChars_iff (c d : Char) (rest rest' l : List Char)
    (hc : unicodeIsSpace c = false) (hd : unicodeIsSpace d = false)
    (hrev : (c :: rest).reverse = d :: rest') :
    (c :: rest) <:+: trimSpaceChars l ↔ (c :: rest) <:+: l := by
  constructor
  · intro h
    exact h.trans (trimSpaceChars_infix_self l)
  · intro h
    have h1 := infix_dropWhile unicodeIsSpace c rest l hc h
    have h2 : (d :: rest') <:+: (l.dropWhile unicodeIsSpace).reverse := by
      rw [← hrev]
      exact List.reverse_infix.mpr h1
    have h3 := infix_dropWhile unicodeIsSpace d rest' _ hd h2
    unfold trimSpaceChars
    rw [← List.reverse_infix, List.reverse_reverse, hrev]
    exact h3

theorem stringsContains_trimSpace_ipvs (out : String) :
    stringsContains (stringsTrimSpace out) "ipvs" = stringsContains out "ipvs" := by
  rw [Bool.eq_iff_iff, stringsContains_iff_infix_data, stringsContains_iff_infix_data]
  exact infix_trimSpaceChars_iff 'i' 's' ['p', 'v', 's'] ['v', 'p', 'i'] out.data rfl rfl rfl

theorem stringsContains_trans (a b c : String) (hab : stringsContains a b = true)
    (hbc : stringsContains b c = true) : stringsContains a c = true := by
  rw [stringsContains_iff_infix_data] at hab hbc ⊢
  exact hbc.trans hab

theorem proxyMode_test_redundant (o : String) :
    (stringsContains o "--proxy-mode=ipvs" || stringsContains o "ipvs") =
      stringsContains o "ipvs" := by
  cases h : stringsContains o "--proxy-mode=ipvs" with
  | false => simp
  | true =>
    have := stringsContains_trans o "--proxy-mode=ipvs" "ipvs" h rfl
    simp [this]

theorem stringsContains_join (l : List String) (sep m : String) (hm : m ∈ l) :
    stringsContains (stringsJoin l sep) m = true := by
  induction l with
  | nil => exact absurd hm (List.not_mem_nil m)
  | cons a rest ih =>
    cases rest with
    | nil =>
      rw [List.mem_singleton] at hm
      rw [hm]
      exact stringsContains_self a
    | cons b rest' =>
      rw [stringsJoin]
      rcases List.mem_cons.mp hm with rfl | hm'
      · exact stringsContains_append_left _ _ _
          (stringsContains_append_left _ _ _ (stringsContains_self _))
      · exact stringsContains_append_right _ _ _ (ih hm')

theorem checkModuleCompatibility_of_validate (vc : VersionComparator) (t : String)
    (modules : ModuleMap) (errors : List String) (e : Option String)
    (hv : BreakingChangeValidator.Validate vc ⟨t, modules⟩ = (errors, e)) :
    CheckModuleCompatibility vc t modules =
      match e with
      | some err =>
        if errors.length > 0 then some (err ++ ":\n  - " ++ stringsJoin errors "\n  - ")
        else some err
      | none => none := by
  unfold CheckModuleCompatibility NewBreakingChangeValidator
  simp only [hv]
  cases e <;> rfl

/-! ## The properties of the probes -/

set_option maxRecDepth 8000 in
/-- C15, at a failing input: a cluster whose only node reports the image
"Ubuntu 22.04.3 LTS" gets a finding from `checkNodeOSCompatibility` in both
flavors, since the output is split at every space and none of the pieces
"Ubuntu", "22.04.3", "LTS" matches a pair of the whitelist. -/
theorem nodeOS_probe_rejects_ubuntu_22_04 :
    OnPremises.checkNodeOSCompatibility asciiToLower
        ⟨some (printingRunner "Ubuntu 22.04.3 LTS")⟩ =
      some "node OS: some nodes run unsupported OS versions: Ubuntu, 22.04.3, LTS. Kubernetes 1.35 requires Ubuntu 22.04+, RHEL/CentOS 9+, or Debian 12+" ∧
    KFDDistribution.checkNodeOSCompatibility asciiToLower
        ⟨some (printingRunner "Ubuntu 22.04.3 LTS")⟩ =
      some "node OS: some nodes run unsupported OS versions: Ubuntu, 22.04.3, LTS. Kubernetes 1.35 requires Ubuntu 22.04+, RHEL/CentOS 9+, Debian 12+, or Amazon Linux 2" :=
  ⟨rfl, rfl⟩

set_option maxRecDepth 8000 in
/-- Counterexample to C16 as stated: when the host command prints "tmpfs", the
finding of `checkCgroupV2` does not contain the detected type "tmpfs". -/
theorem cgroup_finding_omits_detected_type :
    OnPremises.checkCgroupV2 (printingExecutor "tmpfs\n") =
      some "cgroup v2: BLOCKER - cgroup v1 detected but Kubernetes 1.35 requires cgroup v2. Upgrade to Ubuntu 22.04+, RHEL/CentOS 9+, or Debian 12+" ∧
    stringsContains
      "cgroup v2: BLOCKER - cgroup v1 detected but Kubernetes 1.35 requires cgroup v2. Upgrade to Ubuntu 22.04+, RHEL/CentOS 9+, or Debian 12+"
      "tmpfs" = false :=
  ⟨rfl, rfl⟩

set_option maxRecDepth 8000 in
/-- C16, amended: for every text the host command returns successfully,
`checkCgroupV2` returns no finding exactly when the text with surrounding
white space trimmed equals "cgroup2fs"; otherwise it returns one finding of
fixed text, which reports cgroup v1 as detected and cites the required upgrade
path. -/
theorem cgroup_probe_iff_cgroup2fs (executor : Executor) (out : String)
    (h : executor "stat" ["-fc", "%T", "/sys/fs/cgroup/"] = .ok out) :
    (OnPremises.checkCgroupV2 executor = none ↔ stringsTrimSpace out = "cgroup2fs") ∧
    (stringsTrimSpace out ≠ "cgroup2fs" →
      OnPremises.checkCgroupV2 executor =
        some "cgroup v2: BLOCKER - cgroup v1 detected but Kubernetes 1.35 requires cgroup v2. Upgrade to Ubuntu 22.04+, RHEL/CentOS 9+, or Debian 12+") ∧
    stringsContains
      "cgroup v2: BLOCKER - cgroup v1 detected but Kubernetes 1.35 requires cgroup v2. Upgrade to Ubuntu 22.04+, RHEL/CentOS 9+, or Debian 12+"
      "Upgrade to Ubuntu 22.04+, RHEL/CentOS 9+, or Debian 12+" = true := by
  refine ⟨?_, ?_, rfl⟩
  · unfold OnPremises.checkCgroupV2
    by_cases ht : stringsTrimSpace out = "cgroup2fs" <;> simp [h, ht]
  · intro ht
    unfold OnPremises.checkCgroupV2
    simp only [h, ne_eq, ht, not_false_eq_true, if_true]
    rfl

/-- Witness of C16, amended: the output " cgroup2fs" followed by a newline
gives no finding, and the output "tmpfs" gives the fixed finding. -/
theorem cgroup_probe_iff_cgroup2fs_witness :
    OnPremises.checkCgroupV2 (printingExecutor " cgroup2fs\n") = none ∧
    OnPremises.checkCgroupV2 (printingExecutor "tmpfs\n") =
      some "cgroup v2: BLOCKER - cgroup v1 detected but Kubernetes 1.35 requires cgroup v2. Upgrade to Ubuntu 22.04+, RHEL/CentOS 9+, or Debian 12+" :=
  ⟨(cgroup_probe_iff_cgroup2fs (printingExecutor " cgroup2fs\n") " cgroup2fs\n" rfl).1.mpr rfl,
   (cgroup_probe_iff_cgroup2fs (printingExecutor "tmpfs\n") "tmpfs\n" rfl).2.1 (by decide)⟩

/-- C17: container-runtime-version probe. For every text the host command
returns successfully, `checkContainerdVersion` returns no finding exactly when
the trimmed text contains "v2." or "v3."; otherwise it returns one finding,
which ends with "Current: " followed by the trimmed text and so contains it
verbatim. -/
theorem containerd_probe_iff_v2_or_v3 (executor : Executor) (out : String)
    (h : executor "containerd" ["--version"] = .ok out) :
    (OnPremises.checkContainerdVersion executor = none ↔
      (stringsContains (stringsTrimSpace out) "v2." = true ∨
        stringsContains (stringsTrimSpace out) "v3." = true)) ∧
    (¬(stringsContains (stringsTrimSpace out) "v2." = true ∨
        stringsContains (stringsTrimSpace out) "v3." = true) →
      OnPremises.checkContainerdVersion executor =
        some ("containerd: BLOCKER - containerd 1.x is EOL and not supported in Kubernetes 1.35. Upgrade to containerd 2.0 or later. Current: " ++
          stringsTrimSpace out)) ∧
    stringsContains
      ("containerd: BLOCKER - containerd 1.x is EOL and not supported in Kubernetes 1.35. Upgrade to containerd 2.0 or later. Current: " ++
        stringsTrimSpace out)
      (stringsTrimSpace out) = true := by
  refine ⟨?_, ?_, stringsContains_append_right _ _ _ (stringsContains_self _)⟩
  · unfold OnPremises.checkContainerdVersion
    cases h2 : stringsContains (stringsTrimSpace out) "v2." <;>
      cases h3 : stringsContains (stringsTrimSpace out) "v3." <;> simp [h, h2, h3]
  · intro hn
    unfold OnPremises.checkContainerdVersion
    cases h2 : stringsContains (stringsTrimSpace out) "v2." <;>
      cases h3 : stringsContains (stringsTrimSpace out) "v3." <;> simp [h2, h3] at hn
    simp only [h, h2, h3]
    rfl

/-- Witness of C17: the version line of containerd 2.0.0 gives no finding, and
the version line of containerd 1.7.2 gives a finding that quotes it. -/
theorem containerd_probe_iff_v2_or_v3_witness :
    OnPremises.checkContainerdVersion
      (printingExecutor "containerd github.com/containerd/containerd v2.0.0\n") = none ∧
    OnPremises.checkContainerdVersion
      (printingExecutor "containerd github.com/containerd/containerd v1.7.2\n") =
      some "containerd: BLOCKER - containerd 1.x is EOL and not supported in Kubernetes 1.35. Upgrade to containerd 2.0 or later. Current: containerd github.com/containerd/containerd v1.7.2" :=
  ⟨(containerd_probe_iff_v2_or_v3
      (printingExecutor "containerd github.com/containerd/containerd v2.0.0\n")
      "containerd github.com/containerd/containerd v2.0.0\n" rfl).1.mpr (Or.inl rfl),
   ((containerd_probe_iff_v2_or_v3
      (printingExecutor "containerd github.com/containerd/containerd v1.7.2\n")
      "containerd github.com/containerd/containerd v1.7.2\n" rfl).2.1 (by decide)).trans rfl⟩

/-- C19: proxy-mode probe. For every text the cluster command returns
successfully, `checkKubeProxyIPVS` returns its one finding exactly when the
text contains "ipvs" and no finding otherwise, in both flavors; the test for
"--proxy-mode=ipvs" changes nothing, trimming the text changes nothing, and
the probe returns no finding when no cluster runner is configured. -/
theorem kubeProxy_probe_iff_ipvs (run : KubeRunner) (out : String)
    (h : run kubeProxyQuery = .ok out) :
    (OnPremises.checkKubeProxyIPVS ⟨some run⟩ =
      if stringsContains out "ipvs" then some ipvsFinding else none) ∧
    (KFDDistribution.checkKubeProxyIPVS ⟨some run⟩ =
      if stringsContains out "ipvs" then some ipvsFinding else none) ∧
    (∀ o : String, (stringsContains o "--proxy-mode=ipvs" || stringsContains o "ipvs") =
      stringsContains o "ipvs") ∧
    stringsContains (stringsTrimSpace out) "ipvs" = stringsContains out "ipvs" ∧
    OnPremises.checkKubeProxyIPVS ⟨none⟩ = none ∧
    KFDDistribution.checkKubeProxyIPVS ⟨none⟩ = none := by
  refine ⟨?_, ?_, proxyMode_test_redundant, stringsContains_trimSpace_ipvs out, rfl, rfl⟩
  · unfold OnPremises.checkKubeProxyIPVS
    simp only [h]
    rw [proxyMode_test_redundant, stringsContains_trimSpace_ipvs]
  · unfold KFDDistribution.checkKubeProxyIPVS
    simp only [h]
    rw [proxyMode_test_redundant, stringsContains_trimSpace_ipvs]

/-- Witness of C19: a kube-proxy command line with "--proxy-mode=ipvs" gives
the finding in both flavors. -/
theorem kubeProxy_probe_iff_ipvs_witness :
    OnPremises.checkKubeProxyIPVS
        ⟨some (printingRunner "[\"kube-proxy\",\"--proxy-mode=ipvs\"]\n")⟩ =
      some ipvsFinding ∧
    KFDDistribution.checkKubeProxyIPVS
        ⟨some (printingRunner "[\"kube-proxy\",\"--proxy-mode=ipvs\"]\n")⟩ =
      some ipvsFinding :=
  ⟨(kubeProxy_probe_iff_ipvs (printingRunner "[\"kube-proxy\",\"--proxy-mode=ipvs\"]\n")
      "[\"kube-proxy\",\"--proxy-mode=ipvs\"]\n" rfl).1.trans rfl,
   (kubeProxy_probe_iff_ipvs (printingRunner "[\"kube-proxy\",\"--proxy-mode=ipvs\"]\n")
      "[\"kube-proxy\",\"--proxy-mode=ipvs\"]\n" rfl).2.1.trans rfl⟩

/-- C20: `CheckModuleCompatibility` formats all errors into a single message.
It returns nil exactly when `Validate` returns a nil error; when `Validate`
returns an error with messages, its error text is the text of that error, then
":\n  - ", then the messages joined by "\n  - " in the order of `Validate`, so
that it contains every message; when `Validate` returns an error without
messages, it returns that error unchanged. -/
theorem checkModuleCompatibility_formats_errors (vc : VersionComparator) (t : String)
    (modules : ModuleMap) :
    (CheckModuleCompatibility vc t modules = none ↔
      (BreakingChangeValidator.Validate vc ⟨t, modules⟩).2 = none) ∧
    (∀ err : String, (BreakingChangeValidator.Validate vc ⟨t, modules⟩).2 = some err →
      (BreakingChangeValidator.Validate vc ⟨t, modules⟩).1 ≠ [] →
      CheckModuleCompatibility vc t modules =
        some (err ++ ":\n  - " ++
          stringsJoin (BreakingChangeValidator.Validate vc ⟨t, modules⟩).1 "\n  - ") ∧
      ∀ m ∈ (BreakingChangeValidator.Validate vc ⟨t, modules⟩).1,
        stringsContains (err ++ ":\n  - " ++
          stringsJoin (BreakingChangeValidator.Validate vc ⟨t, modules⟩).1 "\n  - ") m =
            true) ∧
    (∀ err : String, (BreakingChangeValidator.Validate vc ⟨t, modules⟩).2 = some err →
      (BreakingChangeValidator.Validate vc ⟨t, modules⟩).1 = [] →
      CheckModuleCompatibility vc t modules = some err) := by
  rcases hv : BreakingChangeValidator.Validate vc ⟨t, modules⟩ with ⟨errors, e⟩
  rw [checkModuleCompatibility_of_validate vc t modules errors e hv]
  refine ⟨?_, ?_, ?_⟩
  · cases e <;> cases errors <;> simp
  · intro err he hne
    simp only at he hne
    subst he
    cases errors with
    | nil => exact absurd rfl hne
    | cons x xs =>
      refine ⟨by simp, ?_⟩
      intro m hm
      exact stringsContains_append_right _ _ _ (stringsContains_join _ _ m hm)
  · intro err he hnil
    simp only at he hnil
    subst he
    subst hnil
    simp

/-- Witness of C20: with the concrete comparator, target "1.35.0" and a
malformed auth version beside an old logging version give one error text that
lists both messages; target "invalid" gives the error of `Validate`. -/
theorem checkModuleCompatibility_formats_errors_witness :
    CheckModuleCompatibility semver "1.35.0" malformedAuthModules =
      some "module compatibility check failed: 2 incompatibilities detected:\n  - Module 'auth' has invalid version format 'not-a-version'\n  - Module 'logging' version v5.1.0 is incompatible with Kubernetes 1.35.0. Required: v5.2.0 or later. Kubernetes 1.35 requires logging module v5.2.0+ for new audit log formats" ∧
    CheckModuleCompatibility semver "invalid" malformedAuthModules =
      some "invalid kubernetes version format: invalid semantic version: invalid" :=
  ⟨(((checkModuleCompatibility_formats_errors semver "1.35.0" malformedAuthModules).2.1
      "module compatibility check failed: 2 incompatibilities detected" rfl
      (by decide)).1).trans rfl,
   (checkModuleCompatibility_formats_errors semver "invalid" malformedAuthModules).2.2
      "invalid kubernetes version format: invalid semantic version: invalid" rfl rfl⟩

/-! ## Version prefix normalization, on the concrete comparator -/

theorem parseSemVersion_body (s : String) (body : List Char)
    (hb : (match s.data with | 'v' :: rest => rest | cs => cs) = body) :
    (parseSemVersion s).toOption =
      (match splitChars '.' (cutChars '-' (cutChars '+' body).1).1 with
      | [a, b, c] =>
        if isNumeric a && isNumeric b && isNumeric c then
          match (cutChars '-' (cutChars '+' body).1).2 with
          | none => some (⟨digitsValue a, digitsValue b, digitsValue c, none⟩ : SemVersion)
          | some p =>
            if (splitChars '.' p).all (fun w => !w.isEmpty) then
              some ⟨digitsValue a, digitsValue b, digitsValue c, some (splitChars '.' p)⟩
            else none
        else none
      | _ => none) := by
  unfold parseSemVersion
  simp only [hb]
  split
  · split
    · split
      · rfl
      · split <;> rfl
    · rfl
  · rfl

theorem parseSemVersion_v (s : String) (h : s.data.head? ≠ some 'v') :
    (parseSemVersion ("v" ++ s)).toOption = (parseSemVersion s).toOption := by
  rw [parseSemVersion_body ("v" ++ s) s.data (by rw [String.data_append]; rfl),
    parseSemVersion_body s s.data]
  split
  · rename_i rest hd
    rw [hd] at h
    simp at h
  · rfl

theorem checkChange_length_v (modules : ModuleMap) (s name : String)
    (h : s.data.head? ≠ some 'v') (bc : KubernetesBreakingChanges)
    (change : ModuleBreakingChange) :
    (checkChange semver (Function.update modules name (some ("v" ++ s))) bc []
      change).length =
    (checkChange semver (Function.update modules name (some s)) bc [] change).length := by
  by_cases hname : name = change.Module
  · subst hname
    have hp : (semver.NewVersion ("v" ++ s)).toOption = (semver.NewVersion s).toOption :=
      parseSemVersion_v s h
    unfold checkChange
    simp only [Function.update_same]
    cases hmin : semver.NewVersion change.MinVersion with
    | error e => rfl
    | ok vmin =>
      cases hv : semver.NewVersion ("v" ++ s) with
      | error e₁ =>
        cases hs : semver.NewVersion s with
        | error e₂ => simp [hv, hs]
        | ok c => rw [hv, hs] at hp; simp [Except.toOption] at hp
      | ok c₁ =>
        cases hs : semver.NewVersion s with
        | error e₂ => rw [hv, hs] at hp; simp [Except.toOption] at hp
        | ok c₂ =>
          rw [hv, hs] at hp
          simp only [Except.toOption, Option.some.injEq] at hp
          subst hp
          simp only [hv, hs]
          by_cases hlt : semver.LessThan c₁ vmin = true <;> simp [hlt]
  · rw [checkChange_update semver modules bc [] change name _ hname,
      checkChange_update semver modules bc [] change name _ hname]

/-- C18: version prefix normalization, on the concrete comparator. For a
version text `s` that does not itself start with "v", "v" followed by `s`
parses exactly when `s` does and to the same version; so replacing one form by
the other as the version of a module leaves the number of messages of each rule
and of `Validate` unchanged, and as the target it leaves the messages of
`Validate` and whether it fails unchanged. -/
theorem validate_normalizes_version_v (modules : ModuleMap) (s : String)
    (h : s.data.head? ≠ some 'v') :
    (semver.NewVersion ("v" ++ s)).toOption = (semver.NewVersion s).toOption ∧
    (∀ (bc : KubernetesBreakingChanges) (change : ModuleBreakingChange) (name : String),
      (checkChange semver (Function.update modules name (some ("v" ++ s))) bc []
        change).length =
      (checkChange semver (Function.update modules name (some s)) bc [] change).length) ∧
    (∀ t name : String,
      (BreakingChangeValidator.Validate semver
        ⟨t, Function.update modules name (some ("v" ++ s))⟩).1.length =
      (BreakingChangeValidator.Validate semver
        ⟨t, Function.update modules name (some s)⟩).1.length) ∧
    (BreakingChangeValidator.Validate semver ⟨"v" ++ s, modules⟩).1 =
      (BreakingChangeValidator.Validate semver ⟨s, modules⟩).1 ∧
    ((BreakingChangeValidator.Validate semver ⟨"v" ++ s, modules⟩).2 = none ↔
      (BreakingChangeValidator.Validate semver ⟨s, modules⟩).2 = none) := by
  have hp : (semver.NewVersion ("v" ++ s)).toOption = (semver.NewVersion s).toOption :=
    parseSemVersion_v s h
  have hk : semver.NewVersion changes135.KubernetesVersion =
      .ok (⟨1, 35, 0, none⟩ : SemVersion) := rfl
  refine ⟨hp, fun bc change name => checkChange_length_v modules s name h bc change, ?_, ?_⟩
  · intro t name
    cases ht : semver.NewVersion t with
    | error e =>
      rw [validate_of_unparsed semver t e _ ht, validate_of_unparsed semver t e _ ht]
    | ok P =>
      rw [validate_of_parsed semver t P _ ht, validate_of_parsed semver t P _ ht,
        checkGroup_changes135 semver _ P _ hk, checkGroup_changes135 semver _ P _ hk]
      by_cases hge : semver.GreaterThanOrEqual P (⟨1, 35, 0, none⟩ : SemVersion) = true
      · simp only [hge, if_true, List.length_append, checkChange_length_v modules s name h]
      · simp [hge]
  · cases hv : semver.NewVersion ("v" ++ s) with
    | error e₁ =>
      cases hs : semver.NewVersion s with
      | error e₂ =>
        rw [validate_of_unparsed semver _ e₁ _ hv, validate_of_unparsed semver _ e₂ _ hs]
        simp
      | ok c => rw [hv, hs] at hp; simp [Except.toOption] at hp
    | ok c₁ =>
      cases hs : semver.NewVersion s with
      | error e₂ => rw [hv, hs] at hp; simp [Except.toOption] at hp
      | ok c₂ =>
        rw [hv, hs] at hp
        simp only [Except.toOption, Option.some.injEq] at hp
        subst hp
        rw [validate_of_parsed semver _ c₁ _ hv, validate_of_parsed semver _ c₁ _ hs]
        simp

/-- Witness of C18: with target "1.35.0", auth "0.6.0" gives no message as
auth "v0.6.0" does, auth "0.5.0" gives one message as auth "v0.5.0" does, and
the target "v1.35.0" gives the messages of the target "1.35.0". -/
theorem validate_normalizes_version_v_witness :
    (BreakingChangeValidator.Validate semver
      ⟨"1.35.0", Function.update emptyModules "auth" (some "0.6.0")⟩).1.length = 0 ∧
    (BreakingChangeValidator.Validate semver
      ⟨"1.35.0", Function.update emptyModules "auth" (some "0.5.0")⟩).1.length = 1 ∧
    (BreakingChangeValidator.Validate semver ⟨"v1.35.0", allOldModules⟩).1 =
      (BreakingChangeValidator.Validate semver ⟨"1.35.0", allOldModules⟩).1 :=
  ⟨((validate_normalizes_version_v emptyModules "0.6.0" (by decide)).2.2.1
      "1.35.0" "auth").symm.trans rfl,
   ((validate_normalizes_version_v emptyModules "0.5.0" (by decide)).2.2.1
      "1.35.0" "auth").symm.trans rfl,
   (validate_normalizes_version_v allOldModules "1.35.0" (by decide)).2.2.2.1⟩

/-! ## The two flavors compared -/

theorem kfdDistribution_collectChecks_checksAfterProbes (kp os : Option String) :
    KFDDistribution.collectChecks kp os =
      if (KFDDistribution.checksAfterProbes kp os).HasBlockers then
        some (KFDDistribution.checksAfterProbes kp os)
      else none := by
  cases kp <;> cases os <;> rfl

theorem onPremises_foldl_checkImage (toLower : String → String) (images acc : List String) :
    images.foldl (OnPremises.checkImage toLower) acc =
      acc ++ images.filter
        (fun t => decide (t ≠ "") && !OnPremises.isSupported (toLower t)) := by
  induction images generalizing acc with
  | nil => simp
  | cons t ts ih =>
    rw [List.foldl_cons, ih]
    unfold OnPremises.checkImage
    by_cases ht : t = ""
    · simp [ht, List.filter_cons]
    · by_cases hsup : OnPremises.isSupported (toLower t) = true <;>
        simp [ht, hsup, List.filter_cons]

theorem kfdDistribution_foldl_checkImage (toLower : String → String)
    (images acc : List String) :
    images.foldl (KFDDistribution.checkImage toLower) acc =
      acc ++ images.filter
        (fun t => decide (t ≠ "") && !KFDDistribution.isSupported (toLower t)) := by
  induction images generalizing acc with
  | nil => simp
  | cons t ts ih =>
    rw [List.foldl_cons, ih]
    unfold KFDDistribution.checkImage
    by_cases ht : t = ""
    · simp [ht, List.filter_cons]
    · by_cases hsup : KFDDistribution.isSupported (toLower t) = true <;>
        simp [ht, hsup, List.filter_cons]

theorem kfdDistribution_isSupported_eq (osLower : String) :
    KFDDistribution.isSupported osLower =
      (OnPremises.isSupported osLower ||
        (stringsContains osLower "amazonlinux" || stringsContains osLower "al2")) := by
  unfold KFDDistribution.isSupported OnPremises.isSupported
  split_ifs <;> simp_all

theorem foldl_checkImage_sublist (toLower : String → String) (images : List String) :
    (images.foldl (KFDDistribution.checkImage toLower) []).Sublist
      (images.foldl (OnPremises.checkImage toLower) []) := by
  rw [kfdDistribution_foldl_checkImage, onPremises_foldl_checkImage,
    List.nil_append, List.nil_append]
  apply List.monotone_filter_right
  intro t ht
  rw [kfdDistribution_isSupported_eq] at ht
  cases hon : OnPremises.isSupported (toLower t) with
  | false =>
    simp only [hon, Bool.false_or, Bool.and_eq_true, Bool.not_eq_true',
      Bool.or_eq_false_iff] at ht
    simp [ht.1]
  | true => simp [hon] at ht

theorem foldl_checkImage_eq (toLower : String → String) (images : List String)
    (h : ∀ t ∈ images, stringsContains (toLower t) "amazonlinux" = false ∧
      stringsContains (toLower t) "al2" = false) :
    images.foldl (KFDDistribution.checkImage toLower) [] =
      images.foldl (OnPremises.checkImage toLower) [] := by
  rw [kfdDistribution_foldl_checkImage, onPremises_foldl_checkImage,
    List.nil_append, List.nil_append]
  apply List.filter_congr
  intro t ht
  rw [kfdDistribution_isSupported_eq, (h t ht).1, (h t ht).2]
  simp

theorem onPremises_nodeOS_of_output (toLower : String → String) (run : KubeRunner)
    (out : String) (h : run nodeOSQuery = .ok out) :
    OnPremises.checkNodeOSCompatibility toLower ⟨some run⟩ =
      if ((stringsSplit (stringsTrimSpace out) ' ').foldl
          (OnPremises.checkImage toLower) []).length > 0 then
        some ("node OS: some nodes run unsupported OS versions: " ++
          stringsJoin ((stringsSplit (stringsTrimSpace out) ' ').foldl
            (OnPremises.checkImage toLower) []) ", " ++ ". " ++
          "Kubernetes 1.35 requires Ubuntu 22.04+, RHEL/CentOS 9+, or Debian 12+")
      else none := by
  unfold OnPremises.checkNodeOSCompatibility
  simp only [h]

theorem kfdDistribution_nodeOS_of_output (toLower : String → String) (run : KubeRunner)
    (out : String) (h : run nodeOSQuery = .ok out) :
    KFDDistribution.checkNodeOSCompatibility toLower ⟨some run⟩ =
      if ((stringsSplit (stringsTrimSpace out) ' ').foldl
          (KFDDistribution.checkImage toLower) []).length > 0 then
        some ("node OS: some nodes run unsupported OS versions: " ++
          stringsJoin ((stringsSplit (stringsTrimSpace out) ' ').foldl
            (KFDDistribution.checkImage toLower) []) ", " ++ ". " ++
          "Kubernetes 1.35 requires Ubuntu 22.04+, RHEL/CentOS 9+, Debian 12+, or Amazon Linux 2")
      else none := by
  unfold KFDDistribution.checkNodeOSCompatibility
  simp only [h]

/-- C21: the kfddistribution flavor registers no blocker probe. Whatever its
two probes return, the report built by `CheckKubernetes135Compatibility` has
an empty blockers list (the findings go to the warnings, in order), so
`HasBlockers` is false and the run returns nil, for every cluster runner and
every lower-casing function. -/
theorem kfdDistribution_run_returns_nil (toLower : String → String)
    (p : KFDDistribution.PreFlight) :
    KFDDistribution.CheckKubernetes135Compatibility toLower p = none ∧
    (∀ kubeProxy nodeOS : Option String,
      (KFDDistribution.checksAfterProbes kubeProxy nodeOS).Blockers = [] ∧
      (KFDDistribution.checksAfterProbes kubeProxy nodeOS).Warnings =
        kubeProxy.toList ++ nodeOS.toList ∧
      (KFDDistribution.checksAfterProbes kubeProxy nodeOS).HasBlockers = false ∧
      KFDDistribution.collectChecks kubeProxy nodeOS =
        (if (KFDDistribution.checksAfterProbes kubeProxy nodeOS).HasBlockers then
          some (KFDDistribution.checksAfterProbes kubeProxy nodeOS)
        else none) ∧
      KFDDistribution.collectChecks kubeProxy nodeOS = none) := by
  refine ⟨kfdDistribution_collectChecks_eq _ _, ?_⟩
  intro kp os
  refine ⟨?_, ?_, ?_, kfdDistribution_collectChecks_checksAfterProbes kp os,
    kfdDistribution_collectChecks_eq kp os⟩
  · cases kp <;> cases os <;> rfl
  · cases kp <;> cases os <;> rfl
  · cases kp <;> cases os <;> rfl

set_option maxRecDepth 8000 in
/-- C22: the node-OS whitelists of the two flavors are nested. Every
lower-cased image that the on-premises whitelist accepts the kfddistribution
one accepts too, the latter accepting in addition what contains "amazonlinux"
or "al2"; so the images the kfddistribution probe collects are a sublist of
those the on-premises probe collects, and whenever the kfddistribution probe
returns a finding so does the on-premises one. On an output none of whose
pieces contains "amazonlinux" or "al2" once lower-cased, both probes collect
the same images and return a finding together, naming the same images. On the
output "amazonlinux-2" they differ: the on-premises probe returns a finding and
the kfddistribution probe none. -/
theorem nodeOS_whitelists_nested (toLower : String → String) :
    (∀ osLower : String, OnPremises.isSupported osLower = true →
      KFDDistribution.isSupported osLower = true) ∧
    (∀ osLower : String, KFDDistribution.isSupported osLower =
      (OnPremises.isSupported osLower ||
        (stringsContains osLower "amazonlinux" || stringsContains osLower "al2"))) ∧
    (∀ images : List String,
      (images.foldl (KFDDistribution.checkImage toLower) []).Sublist
        (images.foldl (OnPremises.checkImage toLower) [])) ∧
    (∀ r : Option KubeRunner,
      KFDDistribution.checkNodeOSCompatibility toLower ⟨r⟩ ≠ none →
        OnPremises.checkNodeOSCompatibility toLower ⟨r⟩ ≠ none) ∧
    (∀ (run : KubeRunner) (out : String), run nodeOSQuery = .ok out →
      (∀ t ∈ stringsSplit (stringsTrimSpace out) ' ',
        stringsContains (toLower t) "amazonlinux" = false ∧
        stringsContains (toLower t) "al2" = false) →
      (stringsSplit (stringsTrimSpace out) ' ').foldl (KFDDistribution.checkImage toLower) [] =
        (stringsSplit (stringsTrimSpace out) ' ').foldl (OnPremises.checkImage toLower) [] ∧
      OnPremises.checkNodeOSCompatibility toLower ⟨some run⟩ =
        (if ((stringsSplit (stringsTrimSpace out) ' ').foldl
            (OnPremises.checkImage toLower) []).length > 0 then
          some ("node OS: some nodes run unsupported OS versions: " ++
            stringsJoin ((stringsSplit (stringsTrimSpace out) ' ').foldl
              (OnPremises.checkImage toLower) []) ", " ++ ". " ++
            "Kubernetes 1.35 requires Ubuntu 22.04+, RHEL/CentOS 9+, or Debian 12+")
        else none) ∧
      KFDDistribution.checkNodeOSCompatibility toLower ⟨some run⟩ =
        (if ((stringsSplit (stringsTrimSpace out) ' ').foldl
            (OnPremises.checkImage toLower) []).length > 0 then
          some ("node OS: some nodes run unsupported OS versions: " ++
            stringsJoin ((stringsSplit (stringsTrimSpace out) ' ').foldl
              (OnPremises.checkImage toLower) []) ", " ++ ". " ++
            "Kubernetes 1.35 requires Ubuntu 22.04+, RHEL/CentOS 9+, Debian 12+, or Amazon Linux 2")
        else none)) ∧
    (OnPremises.checkNodeOSCompatibility asciiToLower
        ⟨some (printingRunner "amazonlinux-2")⟩ =
      some "node OS: some nodes run unsupported OS versions: amazonlinux-2. Kubernetes 1.35 requires Ubuntu 22.04+, RHEL/CentOS 9+, or Debian 12+" ∧
     KFDDistribution.checkNodeOSCompatibility asciiToLower
        ⟨some (printingRunner "amazonlinux-2")⟩ = none ∧
     stringsContains (asciiToLower "amazonlinux-2") "amazonlinux" = true) := by
  refine ⟨?_, kfdDistribution_isSupported_eq, foldl_checkImage_sublist toLower, ?_, ?_,
    ⟨rfl, rfl, rfl⟩⟩
  · intro osLower h
    rw [kfdDistribution_isSupported_eq, h]
    rfl
  · intro r hk
    cases r with
    | none => exact absurd rfl hk
    | some run =>
      cases hrun : run nodeOSQuery with
      | error e =>
        exact absurd (kfdDistribution_nodeOS_of_error toLower run e hrun) hk
      | ok out =>
        rw [kfdDistribution_nodeOS_of_output toLower run out hrun] at hk
        rw [onPremises_nodeOS_of_output toLower run out hrun]
        have hsub := foldl_checkImage_sublist toLower (stringsSplit (stringsTrimSpace out) ' ')
        have hlen := hsub.length_le
        by_cases hpos : ((stringsSplit (stringsTrimSpace out) ' ').foldl
            (KFDDistribution.checkImage toLower) []).length > 0
        · have hpos' : ((stringsSplit (stringsTrimSpace out) ' ').foldl
              (OnPremises.checkImage toLower) []).length > 0 := by omega
          simp [hpos']
        · simp [hpos] at hk
  · intro run out hrun hno
    have heq := foldl_checkImage_eq toLower _ hno
    refine ⟨heq, onPremises_nodeOS_of_output toLower run out hrun, ?_⟩
    rw [kfdDistribution_nodeOS_of_output toLower run out hrun, heq]

/-- Witness of C22: on the output "centos7 debian-11" both probes name the same
two images, and on the output "centos7 al2" the kfddistribution probe returns
a finding and so does the on-premises probe. -/
theorem nodeOS_whitelists_nested_witness :
    (OnPremises.checkNodeOSCompatibility asciiToLower
        ⟨some (printingRunner "centos7 debian-11")⟩ =
      some "node OS: some nodes run unsupported OS versions: centos7, debian-11. Kubernetes 1.35 requires Ubuntu 22.04+, RHEL/CentOS 9+, or Debian 12+" ∧
     KFDDistribution.checkNodeOSCompatibility asciiToLower
        ⟨some (printingRunner "centos7 debian-11")⟩ =
      some "node OS: some nodes run unsupported OS versions: centos7, debian-11. Kubernetes 1.35 requires Ubuntu 22.04+, RHEL/CentOS 9+, Debian 12+, or Amazon Linux 2") ∧
    OnPremises.checkNodeOSCompatibility asciiToLower
      ⟨some (printingRunner "centos7 al2")⟩ ≠ none :=
  ⟨⟨(((nodeOS_whitelists_nested asciiToLower).2.2.2.2.1 (printingRunner "centos7 debian-11")
        "centos7 debian-11" rfl (by decide)).2.1).trans rfl,
    (((nodeOS_whitelists_nested asciiToLower).2.2.2.2.1 (printingRunner "centos7 debian-11")
        "centos7 debian-11" rfl (by decide)).2.2).trans rfl⟩,
   (nodeOS_whitelists_nested asciiToLower).2.2.2.1 (some (printingRunner "centos7 al2"))
      (by decide)⟩

end Furyctl
